import Mathlib

/-!
Verification of the LibreSprite script generator (`script_templates.py`)

Shallow embedding of the `ScriptTemplates` class of
`src/libresprite_mcp/script_templates.py`.  Each generator method is
embedded twice:

* as a `String`-valued function (named as in the source) reproducing the
  f-string template byte for byte, with `{param}` holes rendered by
  `toString`;
* as a state-transition function `run_*` giving the meaning of the
  generated JavaScript when evaluated by the scripting host: a function
  from the host state to the new host state paired with the list of
  `console.log` lines the script prints.

The host itself (LibreSprite) is not part of the repository; the few host
primitives the scripts invoke (`NewFile`, `NewLayer`, `RemoveLayer`,
pixel get/set, `pixelColor.rgba` and its channel extractors) are modelled
from the spec's §6 host-contract, each with a doc comment saying so.
-/

/-! ## Colors

The host's `app.pixelColor.rgba` packs four 0–255 channels into one
number, little-endian (`r | g<<8 | b<<16 | a<<24`); `rgbaR`/`rgbaG`/…
extract the channels.  Modelled from the spec: §6 requires "a
color-encoding constructor from four 0–255 channel values and channel
extractors from an encoded color". -/

def rgba (r g b a : Nat) : Nat :=
  r + 256 * (g + 256 * (b + 256 * a))

/-- Red channel of an encoded color (host contract, §6). -/
def rgbaR (c : Nat) : Nat := c % 256

/-- Green channel of an encoded color (host contract, §6). -/
def rgbaG (c : Nat) : Nat := c / 256 % 256

/-- Blue channel of an encoded color (host contract, §6). -/
def rgbaB (c : Nat) : Nat := c / 65536 % 256

theorem rgbaR_rgba (r g b a : Nat) (hr : r < 256) : rgbaR (rgba r g b a) = r := by
  unfold rgbaR rgba
  rw [Nat.add_mul_mod_self_left, Nat.mod_eq_of_lt hr]

theorem rgbaG_rgba (r g b a : Nat) (hr : r < 256) (hg : g < 256) :
    rgbaG (rgba r g b a) = g := by
  unfold rgbaG rgba
  rw [Nat.add_mul_div_left _ _ (by norm_num : 0 < 256), Nat.div_eq_of_lt hr]
  rw [Nat.zero_add, Nat.add_mul_mod_self_left, Nat.mod_eq_of_lt hg]

theorem rgbaB_rgba (r g b a : Nat) (hr : r < 256) (hg : g < 256) (hb : b < 256) :
    rgbaB (rgba r g b a) = b := by
  unfold rgbaB rgba
  have h : r + 256 * (g + 256 * (b + 256 * a)) = (r + 256 * g) + 65536 * (b + 256 * a) := by ring
  rw [h, Nat.add_mul_div_left _ _ (by norm_num : 0 < 65536),
    Nat.div_eq_of_lt (by omega), Nat.zero_add, Nat.add_mul_mod_self_left, Nat.mod_eq_of_lt hb]

/-! ## The drawable surface and the host state -/

/-- The active drawable surface (`app.activeImage`): a pixel buffer with a
width, a height and a pixel lookup.  `pix` is total on `Int × Int`; the
scripts only ever read or write in-bounds coordinates (every template
bounds-checks before `putPixel`/`getPixel`). -/
structure Image where
  width : Nat
  height : Nat
  pix : Int → Int → Nat

/-- The bounds check every template performs before touching a pixel:
`x >= 0 && x < img.width && y >= 0 && y < img.height`. -/
def Image.inB (img : Image) (x y : Int) : Bool :=
  decide (0 ≤ x) && decide (x < (img.width : Int)) &&
  decide (0 ≤ y) && decide (y < (img.height : Int))

theorem Image.inB_iff (img : Image) (x y : Int) :
    img.inB x y = true ↔
      0 ≤ x ∧ x < (img.width : Int) ∧ 0 ≤ y ∧ y < (img.height : Int) := by
  simp [Image.inB, and_assoc]

/-- Host primitive `img.getPixel(x, y)` (host contract, §6). -/
def Image.getPixel (img : Image) (x y : Int) : Nat := img.pix x y

/-- Host primitive `img.putPixel(x, y, c)` (host contract, §6). -/
def Image.putPixel (img : Image) (x y : Int) (c : Nat) : Image :=
  { img with pix := fun u v => if u = x ∧ v = y then c else img.pix u v }

/-- Host primitive `img.clear(c)` (host contract, §6): the whole buffer
takes the color `c`. -/
def Image.clear (img : Image) (c : Nat) : Image :=
  { img with pix := fun _ _ => c }

@[simp] theorem Image.width_putPixel (img : Image) (x y : Int) (c : Nat) :
    (img.putPixel x y c).width = img.width := rfl

@[simp] theorem Image.height_putPixel (img : Image) (x y : Int) (c : Nat) :
    (img.putPixel x y c).height = img.height := rfl

@[simp] theorem Image.inB_putPixel (img : Image) (x y u v : Int) (c : Nat) :
    (img.putPixel x y c).inB u v = img.inB u v := rfl

theorem Image.pix_putPixel (img : Image) (x y u v : Int) (c : Nat) :
    (img.putPixel x y c).pix u v = if u = x ∧ v = y then c else img.pix u v := rfl

@[simp] theorem Image.pix_putPixel_self (img : Image) (x y : Int) (c : Nat) :
    (img.putPixel x y c).pix x y = c := by
  simp [Image.pix_putPixel]

theorem Image.pix_putPixel_ne (img : Image) (x y u v : Int) (c : Nat)
    (h : ¬(u = x ∧ v = y)) : (img.putPixel x y c).pix u v = img.pix u v := by
  simp [Image.pix_putPixel, h]

/-- One layer of the active sprite, as the scripts see it
(`layer.name`, `layer.isVisible`, `layer.isEditable`). -/
structure Layer where
  name : String
  isVisible : Bool
  isEditable : Bool
  deriving DecidableEq

/-- The active document (`app.activeSprite`): dimensions, color-mode
token and the layer stack. -/
structure Sprite where
  width : Nat
  height : Nat
  colorMode : String
  layers : List Layer

/-- `sprite.layerCount`. -/
def Sprite.layerCount (s : Sprite) : Nat := s.layers.length

/-- `sprite.layer(i)`, total via a default (the scripts only call it at
indices already checked against `layerCount`). -/
def Sprite.layer (s : Sprite) (i : Nat) : Layer :=
  s.layers.getD i ⟨"", false, false⟩

/-- The host state a submitted script runs against: the possibly absent
active document and active drawable surface, plus the active layer/frame
indices (`app.activeLayerNumber`, `app.activeFrameNumber`). -/
structure Host where
  activeSprite : Option Sprite
  activeImage : Option Image
  activeLayerNumber : Nat
  activeFrameNumber : Nat

/-- Result of evaluating one script: the new host state and the
`console.log` lines the script printed, in order. -/
abbrev RunResult := Host × List String

/-! ## The script templates, byte for byte

Each `def` below reproduces the f-string template of the Python method of
the same name in `ScriptTemplates`; the interpolation holes are rendered
with `toString` (Python's `str()` and JavaScript's number-to-string agree
with Lean's `toString` on integers), `pyUpper color_mode` for
`color_mode.upper()` and `toString filled` for `str(filled).lower()`
(both yield "true"/"false"). -/

/-- Python's `color_mode.upper()`: ASCII uppercase, character by
character (the color-mode tokens are plain ASCII). -/
def pyUpper (s : String) : String := String.mk (s.data.map Char.toUpper)

def create_sprite (width height : Nat) (color_mode : String) : String :=
  "\ntry \x7b\n    // Use the NewFile command to create a new sprite\n    app.command.setParameter(\"width\", " ++
  toString width ++
  ");\n    app.command.setParameter(\"height\", " ++
  toString height ++
  ");\n    app.command.setParameter(\"colorMode\", ColorMode." ++
  pyUpper color_mode ++
  ");\n    app.command.NewFile();\n    app.command.clearParameters();\n    \n    const sprite = app.activeSprite;\n    if (sprite) \x7b\n        console.log('Created new sprite: ' + sprite.width + 'x' + sprite.height + ' (' + sprite.colorMode + ')');\n        console.log('Active sprite now has ' + sprite.layerCount + ' layer(s)');\n    \x7d else \x7b\n        console.log('Failed to create sprite');\n    \x7d\n\x7d catch (e) \x7b\n    console.log('Error creating sprite: ' + e.message);\n\x7d\n"

/-- The three literal segments of the `create_layer` template around its
two `\x7bname\x7d` holes (the name is spliced in verbatim — the source
performs no escaping). -/
def createLayerSegA : String :=
  "\ntry \x7b\n    const sprite = app.activeSprite;\n    if (!sprite) \x7b\n        console.log('No active sprite');\n    \x7d else \x7b\n        // Use the NewLayer command to create a new layer\n        app.command.setParameter(\"name\", \""

/-- Segment between the two name holes of `create_layer`. -/
def createLayerSegB : String :=
  "\");\n        app.command.NewLayer();\n        app.command.clearParameters();\n        \n        console.log('Created new layer: "

/-- Tail segment of `create_layer`. -/
def createLayerSegC : String :=
  "');\n        console.log('Sprite now has ' + sprite.layerCount + ' layer(s)');\n    \x7d\n\x7d catch (e) \x7b\n    console.log('Error creating layer: ' + e.message);\n\x7d\n"

def create_layer (name : String) : String :=
  createLayerSegA ++ name ++ createLayerSegB ++ name ++ createLayerSegC

def fill_layer (r g b a : Nat) : String :=
  "\ntry \x7b\n    const sprite = app.activeSprite;\n    if (!sprite) \x7b\n        console.log('No active sprite');\n    \x7d else \x7b\n        const img = app.activeImage;\n        if (!img) \x7b\n            console.log('No active image');\n        \x7d else \x7b\n            const col = app.pixelColor;\n            const fillColor = col.rgba(" ++
  toString r ++
  ", " ++
  toString g ++
  ", " ++
  toString b ++
  ", " ++
  toString a ++
  ");\n            \n            // Clear the image with the specified color\n            img.clear(fillColor);\n            \n            console.log('Filled active layer with color rgba(' + " ++
  toString r ++
  " + ',' + " ++
  toString g ++
  " + ',' + " ++
  toString b ++
  " + ',' + " ++
  toString a ++
  " + ')');\n        \x7d\n    \x7d\n\x7d catch (e) \x7b\n    console.log('Error filling layer: ' + e.message);\n\x7d\n"

def draw_circle (cx cy : Int) (radius r g b a : Nat) (filled : Bool) : String :=
  "\ntry \x7b\n    const sprite = app.activeSprite;\n    if (!sprite) \x7b\n        console.log('No active sprite');\n    \x7d else \x7b\n        const img = app.activeImage;\n        if (!img) \x7b\n            console.log('No active image');\n        \x7d else \x7b\n            const col = app.pixelColor;\n            const circleColor = col.rgba(" ++
  toString r ++
  ", " ++
  toString g ++
  ", " ++
  toString b ++
  ", " ++
  toString a ++
  ");\n            \n            const cx = " ++
  toString cx ++
  ";\n            const cy = " ++
  toString cy ++
  ";\n            const radius = " ++
  toString radius ++
  ";\n            const filled = " ++
  toString filled ++
  ";\n            \n            for (let y = cy - radius; y <= cy + radius; y++) \x7b\n                for (let x = cx - radius; x <= cx + radius; x++) \x7b\n                    if (x >= 0 && x < img.width && y >= 0 && y < img.height) \x7b\n                        const dx = x - cx;\n                        const dy = y - cy;\n                        const distance = Math.sqrt(dx * dx + dy * dy);\n                        \n                        if (filled ? distance <= radius : Math.abs(distance - radius) < 1) \x7b\n                            img.putPixel(x, y, circleColor);\n                        \x7d\n                    \x7d\n                \x7d\n            \x7d\n            \n            console.log('Drew ' + (filled ? 'filled' : 'outlined') + ' circle at (' + cx + ',' + cy + ') radius ' + radius);\n        \x7d\n    \x7d\n\x7d catch (e) \x7b\n    console.log('Error drawing circle: ' + e.message);\n\x7d\n"

def get_sprite_info : String :=
  "\ntry \x7b\n    const sprite = app.activeSprite;\n    if (!sprite) \x7b\n        console.log('No active sprite');\n    \x7d else \x7b\n        console.log('=== SPRITE INFO ===');\n        console.log('Dimensions: ' + sprite.width + 'x' + sprite.height);\n        console.log('Color Mode: ' + sprite.colorMode);\n        console.log('Layer Count: ' + sprite.layerCount);\n        console.log('Current Layer: ' + app.activeLayerNumber);\n        console.log('Current Frame: ' + app.activeFrameNumber);\n        \n        console.log('--- LAYER DETAILS ---');\n        for (let i = 0; i < sprite.layerCount; i++) \x7b\n            const layer = sprite.layer(i);\n            if (layer) \x7b\n                console.log('Layer ' + i + ': \"' + layer.name + '\" (visible: ' + layer.isVisible + ', editable: ' + layer.isEditable + ')');\n            \x7d\n        \x7d\n    \x7d\n\x7d catch (e) \x7b\n    console.log('Error getting sprite info: ' + e.message);\n\x7d\n"

def draw_rectangle (x y : Int) (width height r g b a : Nat) (filled : Bool) : String :=
  "\ntry \x7b\n    const sprite = app.activeSprite;\n    if (!sprite) \x7b\n        console.log('No active sprite');\n    \x7d else \x7b\n        const img = app.activeImage;\n        if (!img) \x7b\n            console.log('No active image');\n        \x7d else \x7b\n            const col = app.pixelColor;\n            const rectColor = col.rgba(" ++
  toString r ++
  ", " ++
  toString g ++
  ", " ++
  toString b ++
  ", " ++
  toString a ++
  ");\n            \n            const x = " ++
  toString x ++
  ";\n            const y = " ++
  toString y ++
  ";\n            const width = " ++
  toString width ++
  ";\n            const height = " ++
  toString height ++
  ";\n            const filled = " ++
  toString filled ++
  ";\n            \n            if (filled) \x7b\n                // Fill the rectangle\n                for (let py = y; py < y + height; py++) \x7b\n                    for (let px = x; px < x + width; px++) \x7b\n                        if (px >= 0 && px < img.width && py >= 0 && py < img.height) \x7b\n                            img.putPixel(px, py, rectColor);\n                        \x7d\n                    \x7d\n                \x7d\n            \x7d else \x7b\n                // Draw rectangle outline\n                // Top and bottom edges\n                for (let px = x; px < x + width; px++) \x7b\n                    if (px >= 0 && px < img.width) \x7b\n                        if (y >= 0 && y < img.height) img.putPixel(px, y, rectColor);\n                        if (y + height - 1 >= 0 && y + height - 1 < img.height) img.putPixel(px, y + height - 1, rectColor);\n                    \x7d\n                \x7d\n                // Left and right edges\n                for (let py = y; py < y + height; py++) \x7b\n                    if (py >= 0 && py < img.height) \x7b\n                        if (x >= 0 && x < img.width) img.putPixel(x, py, rectColor);\n                        if (x + width - 1 >= 0 && x + width - 1 < img.width) img.putPixel(x + width - 1, py, rectColor);\n                    \x7d\n                \x7d\n            \x7d\n            \n            console.log('Drew ' + (filled ? 'filled' : 'outlined') + ' rectangle at (' + x + ',' + y + ') size ' + width + 'x' + height);\n        \x7d\n    \x7d\n\x7d catch (e) \x7b\n    console.log('Error drawing rectangle: ' + e.message);\n\x7d\n"

def draw_line (x1 y1 x2 y2 : Int) (r g b a thickness : Nat) : String :=
  "\ntry \x7b\n    const sprite = app.activeSprite;\n    if (!sprite) \x7b\n        console.log('No active sprite');\n    \x7d else \x7b\n        const img = app.activeImage;\n        if (!img) \x7b\n            console.log('No active image');\n        \x7d else \x7b\n            const col = app.pixelColor;\n            const lineColor = col.rgba(" ++
  toString r ++
  ", " ++
  toString g ++
  ", " ++
  toString b ++
  ", " ++
  toString a ++
  ");\n            \n            const x1 = " ++
  toString x1 ++
  ";\n            const y1 = " ++
  toString y1 ++
  ";\n            const x2 = " ++
  toString x2 ++
  ";\n            const y2 = " ++
  toString y2 ++
  ";\n            const thickness = " ++
  toString thickness ++
  ";\n            \n            // Bresenham's line algorithm\n            const dx = Math.abs(x2 - x1);\n            const dy = Math.abs(y2 - y1);\n            const sx = x1 < x2 ? 1 : -1;\n            const sy = y1 < y2 ? 1 : -1;\n            let err = dx - dy;\n            \n            let x = x1;\n            let y = y1;\n            \n            while (true) \x7b\n                // Draw thick line by drawing a circle at each point\n                for (let ty = -Math.floor(thickness/2); ty <= Math.floor(thickness/2); ty++) \x7b\n                    for (let tx = -Math.floor(thickness/2); tx <= Math.floor(thickness/2); tx++) \x7b\n                        const px = x + tx;\n                        const py = y + ty;\n                        if (px >= 0 && px < img.width && py >= 0 && py < img.height) \x7b\n                            if (thickness === 1 || (tx * tx + ty * ty <= (thickness/2) * (thickness/2))) \x7b\n                                img.putPixel(px, py, lineColor);\n                            \x7d\n                        \x7d\n                    \x7d\n                \x7d\n                \n                if (x === x2 && y === y2) break;\n                \n                const e2 = 2 * err;\n                if (e2 > -dy) \x7b\n                    err -= dy;\n                    x += sx;\n                \x7d\n                if (e2 < dx) \x7b\n                    err += dx;\n                    y += sy;\n                \x7d\n            \x7d\n            \n            console.log('Drew line from (' + x1 + ',' + y1 + ') to (' + x2 + ',' + y2 + ') thickness ' + thickness);\n        \x7d\n    \x7d\n\x7d catch (e) \x7b\n    console.log('Error drawing line: ' + e.message);\n\x7d\n"

def draw_ellipse (cx cy : Int) (width height r g b a : Nat) (filled : Bool) : String :=
  "\ntry \x7b\n    const sprite = app.activeSprite;\n    if (!sprite) \x7b\n        console.log('No active sprite');\n    \x7d else \x7b\n        const img = app.activeImage;\n        if (!img) \x7b\n            console.log('No active image');\n        \x7d else \x7b\n            const col = app.pixelColor;\n            const ellipseColor = col.rgba(" ++
  toString r ++
  ", " ++
  toString g ++
  ", " ++
  toString b ++
  ", " ++
  toString a ++
  ");\n            \n            const cx = " ++
  toString cx ++
  ";\n            const cy = " ++
  toString cy ++
  ";\n            const width = " ++
  toString width ++
  ";\n            const height = " ++
  toString height ++
  ";\n            const filled = " ++
  toString filled ++
  ";\n            \n            const a = width / 2;\n            const b = height / 2;\n            \n            for (let y = cy - Math.ceil(b); y <= cy + Math.ceil(b); y++) \x7b\n                for (let x = cx - Math.ceil(a); x <= cx + Math.ceil(a); x++) \x7b\n                    if (x >= 0 && x < img.width && y >= 0 && y < img.height) \x7b\n                        const dx = x - cx;\n                        const dy = y - cy;\n                        const ellipseEq = (dx * dx) / (a * a) + (dy * dy) / (b * b);\n                        \n                        if (filled) \x7b\n                            if (ellipseEq <= 1) \x7b\n                                img.putPixel(x, y, ellipseColor);\n                            \x7d\n                        \x7d else \x7b\n                            // Draw outline - check if point is close to ellipse edge\n                            if (Math.abs(ellipseEq - 1) < 0.1) \x7b\n                                img.putPixel(x, y, ellipseColor);\n                            \x7d\n                        \x7d\n                    \x7d\n                \x7d\n            \x7d\n            \n            console.log('Drew ' + (filled ? 'filled' : 'outlined') + ' ellipse at (' + cx + ',' + cy + ') size ' + width + 'x' + height);\n        \x7d\n    \x7d\n\x7d catch (e) \x7b\n    console.log('Error drawing ellipse: ' + e.message);\n\x7d\n"

def put_pixel (x y : Int) (r g b a : Nat) : String :=
  "\ntry \x7b\n    const sprite = app.activeSprite;\n    if (!sprite) \x7b\n        console.log('No active sprite');\n    \x7d else \x7b\n        const img = app.activeImage;\n        if (!img) \x7b\n            console.log('No active image');\n        \x7d else \x7b\n            const x = " ++
  toString x ++
  ";\n            const y = " ++
  toString y ++
  ";\n            \n            if (x >= 0 && x < img.width && y >= 0 && y < img.height) \x7b\n                const col = app.pixelColor;\n                const pixelColor = col.rgba(" ++
  toString r ++
  ", " ++
  toString g ++
  ", " ++
  toString b ++
  ", " ++
  toString a ++
  ");\n                img.putPixel(x, y, pixelColor);\n                console.log('Set pixel at (' + x + ',' + y + ') to rgba(' + " ++
  toString r ++
  " + ',' + " ++
  toString g ++
  " + ',' + " ++
  toString b ++
  " + ',' + " ++
  toString a ++
  " + ')');\n            \x7d else \x7b\n                console.log('Pixel coordinates (' + x + ',' + y + ') are out of bounds');\n            \x7d\n        \x7d\n    \x7d\n\x7d catch (e) \x7b\n    console.log('Error setting pixel: ' + e.message);\n\x7d\n"

def flood_fill (x y : Int) (r g b a : Nat) : String :=
  "\ntry \x7b\n    const sprite = app.activeSprite;\n    if (!sprite) \x7b\n        console.log('No active sprite');\n    \x7d else \x7b\n        const img = app.activeImage;\n        if (!img) \x7b\n            console.log('No active image');\n        \x7d else \x7b\n            const startX = " ++
  toString x ++
  ";\n            const startY = " ++
  toString y ++
  ";\n            \n            if (startX >= 0 && startX < img.width && startY >= 0 && startY < img.height) \x7b\n                const col = app.pixelColor;\n                const fillColor = col.rgba(" ++
  toString r ++
  ", " ++
  toString g ++
  ", " ++
  toString b ++
  ", " ++
  toString a ++
  ");\n                const targetColor = img.getPixel(startX, startY);\n                \n                if (targetColor === fillColor) \x7b\n                    console.log('Target color is the same as fill color, no action needed');\n                    return;\n                \x7d\n                \n                const stack = [[startX, startY]];\n                let fillCount = 0;\n                \n                while (stack.length > 0) \x7b\n                    const [x, y] = stack.pop();\n                    \n                    if (x < 0 || x >= img.width || y < 0 || y >= img.height) continue;\n                    if (img.getPixel(x, y) !== targetColor) continue;\n                    \n                    img.putPixel(x, y, fillColor);\n                    fillCount++;\n                    \n                    stack.push([x + 1, y]);\n                    stack.push([x - 1, y]);\n                    stack.push([x, y + 1]);\n                    stack.push([x, y - 1]);\n                \x7d\n                \n                console.log('Flood fill completed at (' + startX + ',' + startY + '), filled ' + fillCount + ' pixels');\n            \x7d else \x7b\n                console.log('Start coordinates (' + startX + ',' + startY + ') are out of bounds');\n            \x7d\n        \x7d\n    \x7d\n\x7d catch (e) \x7b\n    console.log('Error flood filling: ' + e.message);\n\x7d\n"

def set_active_layer (layer_number : Int) : String :=
  "\ntry \x7b\n    const sprite = app.activeSprite;\n    if (!sprite) \x7b\n        console.log('No active sprite');\n    \x7d else \x7b\n        const layerNumber = " ++
  toString layer_number ++
  ";\n        \n        if (layerNumber >= 0 && layerNumber < sprite.layerCount) \x7b\n            // Use the GotoLayer command - this might not exist, so we'll use a workaround\n            // Since there's no direct layer switching in the API, we'll document the current layer\n            const layer = sprite.layer(layerNumber);\n            if (layer) \x7b\n                console.log('Switching to layer ' + layerNumber + ': \"' + layer.name + '\"');\n                console.log('Note: Layer switching via script may be limited. Use UI to switch layers.');\n                console.log('Current active layer: ' + app.activeLayerNumber);\n            \x7d else \x7b\n                console.log('Layer ' + layerNumber + ' not found');\n            \x7d\n        \x7d else \x7b\n            console.log('Layer number ' + layerNumber + ' is out of range (0-' + (sprite.layerCount - 1) + ')');\n        \x7d\n    \x7d\n\x7d catch (e) \x7b\n    console.log('Error switching layer: ' + e.message);\n\x7d\n"

def delete_layer (layer_number : Int) : String :=
  "\ntry \x7b\n    const sprite = app.activeSprite;\n    if (!sprite) \x7b\n        console.log('No active sprite');\n    \x7d else \x7b\n        const layerNumber = " ++
  toString layer_number ++
  ";\n        \n        if (layerNumber >= 0 && layerNumber < sprite.layerCount) \x7b\n            if (sprite.layerCount <= 1) \x7b\n                console.log('Cannot delete the only remaining layer');\n                return;\n            \x7d\n            \n            const layer = sprite.layer(layerNumber);\n            if (layer) \x7b\n                const layerName = layer.name;\n                // Use RemoveLayer command\n                app.command.RemoveLayer();\n                console.log('Deleted layer ' + layerNumber + ': \"' + layerName + '\"');\n                console.log('Sprite now has ' + sprite.layerCount + ' layer(s)');\n            \x7d else \x7b\n                console.log('Layer ' + layerNumber + ' not found');\n            \x7d\n        \x7d else \x7b\n            console.log('Layer number ' + layerNumber + ' is out of range (0-' + (sprite.layerCount - 1) + ')');\n        \x7d\n    \x7d\n\x7d catch (e) \x7b\n    console.log('Error deleting layer: ' + e.message);\n\x7d\n"

def replace_color (old_r old_g old_b new_r new_g new_b new_a : Nat) : String :=
  "\ntry \x7b\n    const sprite = app.activeSprite;\n    if (!sprite) \x7b\n        console.log('No active sprite');\n    \x7d else \x7b\n        const img = app.activeImage;\n        if (!img) \x7b\n            console.log('No active image');\n        \x7d else \x7b\n            const col = app.pixelColor;\n            const oldColor = col.rgba(" ++
  toString old_r ++
  ", " ++
  toString old_g ++
  ", " ++
  toString old_b ++
  ", 255); // Assume full alpha for comparison\n            const newColor = col.rgba(" ++
  toString new_r ++
  ", " ++
  toString new_g ++
  ", " ++
  toString new_b ++
  ", " ++
  toString new_a ++
  ");\n            \n            let replacedCount = 0;\n            \n            for (let y = 0; y < img.height; y++) \x7b\n                for (let x = 0; x < img.width; x++) \x7b\n                    const pixelColor = img.getPixel(x, y);\n                    // Compare RGB components (ignore alpha for old color)\n                    if (col.rgbaR(pixelColor) === " ++
  toString old_r ++
  " && \n                        col.rgbaG(pixelColor) === " ++
  toString old_g ++
  " && \n                        col.rgbaB(pixelColor) === " ++
  toString old_b ++
  ") \x7b\n                        img.putPixel(x, y, newColor);\n                        replacedCount++;\n                    \x7d\n                \x7d\n            \x7d\n            \n            console.log('Replaced ' + replacedCount + ' pixels from rgba(' + " ++
  toString old_r ++
  " + ',' + " ++
  toString old_g ++
  " + ',' + " ++
  toString old_b ++
  " + ',*) to rgba(' + " ++
  toString new_r ++
  " + ',' + " ++
  toString new_g ++
  " + ',' + " ++
  toString new_b ++
  " + ',' + " ++
  toString new_a ++
  " + ')');\n        \x7d\n    \x7d\n\x7d catch (e) \x7b\n    console.log('Error replacing color: ' + e.message);\n\x7d\n"

/-! ## Host primitives modelled from the spec

The scripts invoke three host commands whose behaviour lives in the
external application, outside this repository. -/

/-- Modelled from the spec: §6's "parameterized creation … commands for
documents".  `app.command.NewFile()` after setting the `width`, `height`
and `colorMode` parameters.  Kept abstract: `run_create_sprite` takes the
command's behaviour as an argument, so every theorem about the template
holds for any host; `conformingNewFile` below is the §6/§8 conforming
stub. -/
def NewFileCmd : Type :=
  Nat → Nat → String → Host → Host

/-- Modelled from the spec: §6/§8 conforming host stub for `NewFile` —
creation with parameters `w`, `h`, `mode` yields an active document of
those dimensions whose color mode reports the requested token, with one
layer and a blank active surface. -/
def conformingNewFile (w h : Nat) (mode : String) (s : Host) : Host :=
  { s with
    activeSprite := some ⟨w, h, mode, [⟨"Layer 1", true, true⟩]⟩,
    activeImage := some ⟨w, h, fun _ _ => 0⟩ }

/-- Modelled from the spec: §6's "parameterized creation … commands for
… layers".  `app.command.NewLayer()` with a `name` parameter appends a
visible, editable layer of that name to the active document (where in
the stack it lands is immaterial to every claim). -/
def newLayerCmd (nm : String) (sp : Sprite) : Sprite :=
  { sp with layers := sp.layers ++ [⟨nm, true, true⟩] }

/-- Modelled from the spec: §6's "removal commands for … layers".
`app.command.RemoveLayer()` takes no layer argument: it removes the
*currently active* layer (`app.activeLayerNumber`), whatever that is at
the moment of the call (a no-op if that index is out of range, as
`List.eraseIdx` is). -/
def removeLayerCmd (activeIdx : Nat) (sp : Sprite) : Sprite :=
  { sp with layers := sp.layers.eraseIdx activeIdx }

/-! ## Meaning of each generated script

One `run_*` function per template: the state transformer and console
output of the generated JavaScript, branch for branch.  The guard
structure (`if (!sprite) … if (!img) …`) becomes matches on
`activeSprite` / `activeImage`. -/

/-- Meaning of the `create_sprite` script: set parameters, invoke
`NewFile`, then report the active sprite's dimensions, color mode and
layer count, or `Failed to create sprite`. -/
def run_create_sprite (newFile : NewFileCmd) (width height : Nat)
    (color_mode : String) (s : Host) : RunResult :=
  let s1 := newFile width height (pyUpper color_mode) s
  match s1.activeSprite with
  | some sp =>
    (s1, ["Created new sprite: " ++ toString sp.width ++ "x" ++ toString sp.height
            ++ " (" ++ sp.colorMode ++ ")",
          "Active sprite now has " ++ toString sp.layerCount ++ " layer(s)"])
  | none => (s1, ["Failed to create sprite"])

/-- Meaning of the `create_layer` script. -/
def run_create_layer (nm : String) (s : Host) : RunResult :=
  match s.activeSprite with
  | none => (s, ["No active sprite"])
  | some sp =>
    let sp1 := newLayerCmd nm sp
    ({ s with activeSprite := some sp1 },
     ["Created new layer: " ++ nm,
      "Sprite now has " ++ toString sp1.layerCount ++ " layer(s)"])

/-- Meaning of the `fill_layer` script. -/
def run_fill_layer (r g b a : Nat) (s : Host) : RunResult :=
  match s.activeSprite with
  | none => (s, ["No active sprite"])
  | some _ =>
    match s.activeImage with
    | none => (s, ["No active image"])
    | some img =>
      ({ s with activeImage := some (img.clear (rgba r g b a)) },
       ["Filled active layer with color rgba(" ++ toString r ++ "," ++ toString g
          ++ "," ++ toString b ++ "," ++ toString a ++ ")"])

/-- Meaning of the `put_pixel` script. -/
def run_put_pixel (x y : Int) (r g b a : Nat) (s : Host) : RunResult :=
  match s.activeSprite with
  | none => (s, ["No active sprite"])
  | some _ =>
    match s.activeImage with
    | none => (s, ["No active image"])
    | some img =>
      if img.inB x y then
        ({ s with activeImage := some (img.putPixel x y (rgba r g b a)) },
         ["Set pixel at (" ++ toString x ++ "," ++ toString y ++ ") to rgba("
            ++ toString r ++ "," ++ toString g ++ "," ++ toString b ++ ","
            ++ toString a ++ ")"])
      else
        (s, ["Pixel coordinates (" ++ toString x ++ "," ++ toString y
               ++ ") are out of bounds"])

/-- Meaning of the `get_sprite_info` script (read-only). -/
def run_get_sprite_info (s : Host) : RunResult :=
  match s.activeSprite with
  | none => (s, ["No active sprite"])
  | some sp =>
    (s, ["=== SPRITE INFO ===",
         "Dimensions: " ++ toString sp.width ++ "x" ++ toString sp.height,
         "Color Mode: " ++ sp.colorMode,
         "Layer Count: " ++ toString sp.layerCount,
         "Current Layer: " ++ toString s.activeLayerNumber,
         "Current Frame: " ++ toString s.activeFrameNumber,
         "--- LAYER DETAILS ---"]
        ++ (List.range sp.layerCount).map (fun i =>
             "Layer " ++ toString i ++ ": \"" ++ (sp.layer i).name ++ "\" (visible: "
               ++ toString (sp.layer i).isVisible ++ ", editable: "
               ++ toString (sp.layer i).isEditable ++ ")"))

/-- Meaning of the `set_active_layer` script: the generated script never
mutates anything — the template only reports (its own comment says layer
switching is unavailable and to use the UI). -/
def run_set_active_layer (layer_number : Int) (s : Host) : RunResult :=
  match s.activeSprite with
  | none => (s, ["No active sprite"])
  | some sp =>
    if 0 ≤ layer_number ∧ layer_number < (sp.layerCount : Int) then
      (s, ["Switching to layer " ++ toString layer_number ++ ": \""
             ++ (sp.layer layer_number.toNat).name ++ "\"",
           "Note: Layer switching via script may be limited. Use UI to switch layers.",
           "Current active layer: " ++ toString s.activeLayerNumber])
    else
      (s, ["Layer number " ++ toString layer_number ++ " is out of range (0-"
             ++ toString ((sp.layerCount : Int) - 1) ++ ")"])

/-- Meaning of the `delete_layer` script: range check first, then the
one-layer refusal, then `RemoveLayer` (which acts on the *active* layer —
the script never selects `layerNumber` first) and a report that names the
layer at the requested index but counts the layers actually left. -/
def run_delete_layer (layer_number : Int) (s : Host) : RunResult :=
  match s.activeSprite with
  | none => (s, ["No active sprite"])
  | some sp =>
    if 0 ≤ layer_number ∧ layer_number < (sp.layerCount : Int) then
      if sp.layerCount ≤ 1 then
        (s, ["Cannot delete the only remaining layer"])
      else
        let layerName := (sp.layer layer_number.toNat).name
        let sp1 := removeLayerCmd s.activeLayerNumber sp
        ({ s with activeSprite := some sp1 },
         ["Deleted layer " ++ toString layer_number ++ ": \"" ++ layerName ++ "\"",
          "Sprite now has " ++ toString sp1.layerCount ++ " layer(s)"])
    else
      (s, ["Layer number " ++ toString layer_number ++ " is out of range (0-"
             ++ toString ((sp.layerCount : Int) - 1) ++ ")"])

/-! ## Pixel loops

The drawing templates iterate JavaScript `for` loops over coordinate
ranges; here each loop is a fold over the same coordinate list in the
same order, with the same per-pixel bounds checks. -/

/-- One bounds-checked `putPixel` (the body of the filled-rectangle
loop). -/
def writeChecked (c : Nat) (img : Image) (p : Int × Int) : Image :=
  if img.inB p.1 p.2 then img.putPixel p.1 p.2 c else img

/-- The coordinates of the filled-rectangle loops, row-major (`py` outer
from `y`, `px` inner from `x`), as in `draw_rectangle`'s filled branch. -/
def rectFillCoords (x y : Int) (width height : Nat) : List (Int × Int) :=
  (List.range height).flatMap
    (fun j => (List.range width).map (fun i => (x + Int.ofNat i, y + Int.ofNat j)))

/-- `for (let px = x; px < x + width; px++)` : the `width` values from `x`. -/
def xsRange (x : Int) (width : Nat) : List Int :=
  (List.range width).map (fun i => x + Int.ofNat i)

/-- Body of the outline branch's first loop: at column `px`, write the
top-row pixel `(px, y)` and the bottom-row pixel `(px, yb)`, the column
checked once and each row checked per write, exactly as in the source. -/
def topBotStep (c : Nat) (y yb : Int) (img : Image) (px : Int) : Image :=
  if 0 ≤ px ∧ px < (img.width : Int) then
    let img1 := if 0 ≤ y ∧ y < (img.height : Int) then img.putPixel px y c else img
    if 0 ≤ yb ∧ yb < (img1.height : Int) then img1.putPixel px yb c else img1
  else img

/-- Body of the outline branch's second loop: at row `py`, write the
left-column pixel `(x, py)` and the right-column pixel `(xr, py)`. -/
def leftRightStep (c : Nat) (x xr : Int) (img : Image) (py : Int) : Image :=
  if 0 ≤ py ∧ py < (img.height : Int) then
    let img1 := if 0 ≤ x ∧ x < (img.width : Int) then img.putPixel x py c else img
    if 0 ≤ xr ∧ xr < (img1.width : Int) then img1.putPixel xr py c else img1
  else img

/-- Meaning of the `draw_rectangle` script. -/
def run_draw_rectangle (x y : Int) (width height r g b a : Nat) (filled : Bool)
    (s : Host) : RunResult :=
  match s.activeSprite with
  | none => (s, ["No active sprite"])
  | some _ =>
    match s.activeImage with
    | none => (s, ["No active image"])
    | some img =>
      let c := rgba r g b a
      let img' :=
        if filled then (rectFillCoords x y width height).foldl (writeChecked c) img
        else
          let img1 := (xsRange x width).foldl (topBotStep c y (y + height - 1)) img
          (xsRange y height).foldl (leftRightStep c x (x + width - 1)) img1
      ({ s with activeImage := some img' },
       ["Drew " ++ (if filled then "filled" else "outlined") ++ " rectangle at ("
          ++ toString x ++ "," ++ toString y ++ ") size " ++ toString width ++ "x"
          ++ toString height])

/-- The bounding-box coordinates the circle and ellipse loops iterate:
rows `cy - ry … cy + ry` (outer), columns `cx - rx … cx + rx` (inner). -/
def boxCoords (cx cy : Int) (rx ry : Nat) : List (Int × Int) :=
  ((List.range (2 * ry + 1)).map (fun j => cy - (ry : Int) + Int.ofNat j)).flatMap
    (fun yy => ((List.range (2 * rx + 1)).map (fun i => cx - (rx : Int) + Int.ofNat i)).map
      (fun xx => (xx, yy)))

/-- The circle test, exact-real reading of the source's float test on
`distance = Math.sqrt(dx*dx + dy*dy)`: with `dd = dx² + dy² ≥ 0`,
`distance ≤ radius` is `dd ≤ radius²`, and the outline test
`|distance - radius| < 1` is `dd < (radius+1)²` together with
`(radius-1)² < dd` (the lower bound vacuous at `radius = 0`). -/
def circleCond (filled : Bool) (radius : Nat) (dx dy : Int) : Bool :=
  let dd := dx * dx + dy * dy
  if filled then decide (dd ≤ (radius : Int) * radius)
  else
    decide (dd < ((radius : Int) + 1) * ((radius : Int) + 1)) &&
    (decide ((radius : Int) - 1 < 0) ||
     decide (((radius : Int) - 1) * ((radius : Int) - 1) < dd))

/-- Per-pixel body of the circle loop: bounds check, then the
filled/outline test, then `putPixel`. -/
def circleStep (c : Nat) (filled : Bool) (radius : Nat) (cx cy : Int)
    (img : Image) (p : Int × Int) : Image :=
  if img.inB p.1 p.2 then
    if circleCond filled radius (p.1 - cx) (p.2 - cy) then img.putPixel p.1 p.2 c
    else img
  else img

/-- Meaning of the `draw_circle` script. -/
def run_draw_circle (cx cy : Int) (radius r g b a : Nat) (filled : Bool)
    (s : Host) : RunResult :=
  match s.activeSprite with
  | none => (s, ["No active sprite"])
  | some _ =>
    match s.activeImage with
    | none => (s, ["No active image"])
    | some img =>
      let img' := (boxCoords cx cy radius radius).foldl
        (circleStep (rgba r g b a) filled radius cx cy) img
      ({ s with activeImage := some img' },
       ["Drew " ++ (if filled then "filled" else "outlined") ++ " circle at ("
          ++ toString cx ++ "," ++ toString cy ++ ") radius " ++ toString radius])

/-- The ellipse test, exact-rational reading of the source's float test on
`ellipseEq = dx²/a² + dy²/b²` with `a = width/2`, `b = height/2`: with
`N = 4(dx²·height² + dy²·width²)` and `D = width²·height²`,
`ellipseEq ≤ 1` is `N ≤ D` and `|ellipseEq - 1| < 0.1` is `10·|N-D| < D`.
(The float expression divides, so at `width = 0` or `height = 0` the
source compares against NaN/Infinity, which fails; the integer outline
form also fails there, the degenerate filled form differs only at the
single point `dx = dy = 0` of a zero-size ellipse.) -/
def ellipseCond (filled : Bool) (width height : Nat) (dx dy : Int) : Bool :=
  let N := 4 * (dx * dx * ((height : Int) * height) + dy * dy * ((width : Int) * width))
  let D := ((width : Int) * width) * ((height : Int) * height)
  if filled then decide (N ≤ D)
  else decide (10 * (((N - D).natAbs : Int)) < D)

/-- Per-pixel body of the ellipse loop. -/
def ellipseStep (c : Nat) (filled : Bool) (width height : Nat) (cx cy : Int)
    (img : Image) (p : Int × Int) : Image :=
  if img.inB p.1 p.2 then
    if ellipseCond filled width height (p.1 - cx) (p.2 - cy) then
      img.putPixel p.1 p.2 c
    else img
  else img

/-- Meaning of the `draw_ellipse` script: the loop bounds are
`Math.ceil(width/2)` and `Math.ceil(height/2)`, i.e. `(width+1)/2` and
`(height+1)/2` in integer arithmetic. -/
def run_draw_ellipse (cx cy : Int) (width height r g b a : Nat) (filled : Bool)
    (s : Host) : RunResult :=
  match s.activeSprite with
  | none => (s, ["No active sprite"])
  | some _ =>
    match s.activeImage with
    | none => (s, ["No active image"])
    | some img =>
      let img' := (boxCoords cx cy ((width + 1) / 2) ((height + 1) / 2)).foldl
        (ellipseStep (rgba r g b a) filled width height cx cy) img
      ({ s with activeImage := some img' },
       ["Drew " ++ (if filled then "filled" else "outlined") ++ " ellipse at ("
          ++ toString cx ++ "," ++ toString cy ++ ") size " ++ toString width
          ++ "x" ++ toString height])

/-! ## The line rasterizer -/

/-- The points the `draw_line` loop visits, in visit order: the integer
Bresenham walk of the source (`err = dx - dy`, step `x` when
`2·err > -dy`, step `y` when `2·err < dx`, stop on reaching the
endpoint).  The source's `while (true)` is rendered with fuel; the walk
takes exactly one step of `x` or `y` per iteration, so `dx + dy + 1`
iterations always reach the endpoint (`bresPoints_getLast` below proves
the walk ends at `(x2, y2)` with this fuel). -/
def bresPoints (x2 y2 dx dy sx sy : Int) (fuel : Nat) (x y err : Int) :
    List (Int × Int) :=
  match fuel with
  | 0 => [(x, y)]
  | fuel + 1 =>
    if x = x2 ∧ y = y2 then [(x, y)]
    else
      let e2 := 2 * err
      let xe := if e2 > -dy then (x + sx, err - dy) else (x, err)
      let ye := if e2 < dx then (y + sy, xe.2 + dx) else (y, xe.2)
      (x, y) :: bresPoints x2 y2 dx dy sx sy fuel xe.1 ye.1 ye.2

/-- `for (let ty = -Math.floor(t/2); ty <= Math.floor(t/2); ty++)` : the
offsets `-⌊t/2⌋ … ⌊t/2⌋`. -/
def discOffsets (t : Nat) : List Int :=
  (List.range (2 * (t / 2) + 1)).map (fun i => Int.ofNat i - Int.ofNat (t / 2))

/-- The thick-line stamp test `thickness === 1 || tx*tx + ty*ty <=
(thickness/2)*(thickness/2)`; the float square `(t/2)²` is exactly
`t²/4`, so the integer form multiplies through by 4. -/
def stampCond (t : Nat) (tx ty : Int) : Bool :=
  decide (t = 1) || decide (4 * (tx * tx + ty * ty) ≤ (t : Int) * t)

/-- One stamp of the line loop: at path point `q`, the double offset loop
(`ty` outer, `tx` inner), each write bounds-checked then filtered by
`stampCond`. -/
def stampDisc (c t : Nat) (img : Image) (q : Int × Int) : Image :=
  (discOffsets t).foldl (fun im ty =>
    (discOffsets t).foldl (fun im2 tx =>
      if im2.inB (q.1 + tx) (q.2 + ty) then
        if stampCond t tx ty then im2.putPixel (q.1 + tx) (q.2 + ty) c else im2
      else im2) im) img

/-- Meaning of the `draw_line` script.  The source interleaves one stamp
with one Bresenham step per iteration; since the stepping never reads the
image, folding the stamp over the visited points performs the identical
sequence of `putPixel` calls. -/
def run_draw_line (x1 y1 x2 y2 : Int) (r g b a thickness : Nat) (s : Host) :
    RunResult :=
  match s.activeSprite with
  | none => (s, ["No active sprite"])
  | some _ =>
    match s.activeImage with
    | none => (s, ["No active image"])
    | some img =>
      let dx : Int := (x2 - x1).natAbs
      let dy : Int := (y2 - y1).natAbs
      let sx : Int := if x1 < x2 then 1 else -1
      let sy : Int := if y1 < y2 then 1 else -1
      let pts := bresPoints x2 y2 dx dy sx sy ((dx + dy).toNat + 1) x1 y1 (dx - dy)
      let img' := pts.foldl (stampDisc (rgba r g b a) thickness) img
      ({ s with activeImage := some img' },
       ["Drew line from (" ++ toString x1 ++ "," ++ toString y1 ++ ") to ("
          ++ toString x2 ++ "," ++ toString y2 ++ ") thickness "
          ++ toString thickness])

/-! ## Flood fill -/

/-- The in-bounds coordinates of a surface, as a finite set. -/
def Image.grid (img : Image) : Finset (Int × Int) :=
  Finset.Icc 0 ((img.width : Int) - 1) ×ˢ Finset.Icc 0 ((img.height : Int) - 1)

theorem Image.mem_grid (img : Image) (p : Int × Int) :
    p ∈ img.grid ↔ img.inB p.1 p.2 = true := by
  cases p with
  | mk x y =>
    simp [Image.grid, Finset.mem_product, Image.inB_iff]
    omega

/-- Number of in-bounds pixels of color `c` (the flood-fill termination
measure counts the target-colored pixels still to be consumed). -/
def tcount (img : Image) (c : Nat) : Nat :=
  (img.grid.filter (fun p => img.pix p.1 p.2 = c)).card

/-- The explicit-stack loop of `flood_fill`: pop, skip when out of bounds
or no longer target-colored, otherwise write the fill color, count, and
push the four axis-neighbors (the source pushes `x+1, x-1, y+1, y-1`, so
`(x, y-1)` is on top).  The `while (stack.length > 0)` is rendered with
fuel: each iteration either only pops (measure `5·tcount + length` drops
by 1) or converts one target pixel to `fill ≠ target` and pushes four
(measure drops by 2), so `5·tcount img target + 1` iterations finish the
stack `[(x, y)]`; `floodLoop_spec` below proves the fuel suffices. -/
def floodLoop (target fill : Nat) : Nat → Image → List (Int × Int) → Nat → Image × Nat
  | 0, img, _, n => (img, n)
  | _ + 1, img, [], n => (img, n)
  | fuel + 1, img, (x, y) :: rest, n =>
    if img.inB x y = false then floodLoop target fill fuel img rest n
    else if img.getPixel x y ≠ target then floodLoop target fill fuel img rest n
    else
      floodLoop target fill fuel (img.putPixel x y fill)
        ((x, y - 1) :: (x, y + 1) :: (x - 1, y) :: (x + 1, y) :: rest) (n + 1)

/-- Meaning of the `flood_fill` script. -/
def run_flood_fill (x y : Int) (r g b a : Nat) (s : Host) : RunResult :=
  match s.activeSprite with
  | none => (s, ["No active sprite"])
  | some _ =>
    match s.activeImage with
    | none => (s, ["No active image"])
    | some img =>
      if img.inB x y then
        let fillColor := rgba r g b a
        let targetColor := img.getPixel x y
        if targetColor = fillColor then
          (s, ["Target color is the same as fill color, no action needed"])
        else
          let res := floodLoop targetColor fillColor
            (5 * tcount img targetColor + 1) img [(x, y)] 0
          ({ s with activeImage := some res.1 },
           ["Flood fill completed at (" ++ toString x ++ "," ++ toString y
              ++ "), filled " ++ toString res.2 ++ " pixels"])
      else
        (s, ["Start coordinates (" ++ toString x ++ "," ++ toString y
               ++ ") are out of bounds"])

/-! ## Color replacement -/

/-- The scan order of `replace_color`: row-major, `y` outer from 0, `x`
inner from 0. -/
def coordsRowMajor (w h : Nat) : List (Int × Int) :=
  (List.range h).flatMap
    (fun y => (List.range w).map (fun x => (Int.ofNat x, Int.ofNat y)))

/-- The match test of `replace_color`: the red, green and blue channels
of the pixel against the old color's channels — the pixel's alpha never
enters. -/
def replaceMatch (old_r old_g old_b c : Nat) : Bool :=
  decide (rgbaR c = old_r) && decide (rgbaG c = old_g) && decide (rgbaB c = old_b)

/-- The scan loop of `replace_color`: read each pixel once, rewrite it to
`newColor` (counting) when it matches. -/
def replaceLoop (old_r old_g old_b newColor : Nat) :
    List (Int × Int) → Image → Nat → Image × Nat
  | [], img, n => (img, n)
  | (x, y) :: rest, img, n =>
    if replaceMatch old_r old_g old_b (img.getPixel x y) then
      replaceLoop old_r old_g old_b newColor rest (img.putPixel x y newColor) (n + 1)
    else replaceLoop old_r old_g old_b newColor rest img n

/-- Meaning of the `replace_color` script.  (The source also builds an
`oldColor` value with alpha forced to 255, but never uses it: the
comparison reads the three channels directly.) -/
def run_replace_color (old_r old_g old_b new_r new_g new_b new_a : Nat)
    (s : Host) : RunResult :=
  match s.activeSprite with
  | none => (s, ["No active sprite"])
  | some _ =>
    match s.activeImage with
    | none => (s, ["No active image"])
    | some img =>
      let newColor := rgba new_r new_g new_b new_a
      let res := replaceLoop old_r old_g old_b newColor
        (coordsRowMajor img.width img.height) img 0
      ({ s with activeImage := some res.1 },
       ["Replaced " ++ toString res.2 ++ " pixels from rgba(" ++ toString old_r
          ++ "," ++ toString old_g ++ "," ++ toString old_b ++ ",*) to rgba("
          ++ toString new_r ++ "," ++ toString new_g ++ "," ++ toString new_b
          ++ "," ++ toString new_a ++ ")"])

attribute [ext] Image Sprite Host

/-! ## Generic helpers -/

theorem length_append_pos_left (a b : String) (h : 0 < a.length) :
    0 < (a ++ b).length := by
  rw [String.length_append]; omega

/-- `sub` occurs in `s` as a contiguous substring. -/
def strContains (s sub : String) : Prop :=
  ∃ a b : String, s = a ++ sub ++ b

/-! ## C7: the create-document scenario -/

/-- The concrete output of the `create_sprite 32 32 "RGB"` script on the
conforming host stub. -/
theorem run_create_sprite_32 (s : Host) :
    (run_create_sprite conformingNewFile 32 32 "RGB" s).2 =
      ["Created new sprite: 32x32 (RGB)", "Active sprite now has 1 layer(s)"] := by
  simp only [run_create_sprite]; rfl

/-- C7: the create-document script generated for width=32, height=32,
color mode "RGB", evaluated by the conforming host stub, yields output
containing "32x32" and the literal color-mode token "RGB" (whatever host
state it starts from). -/
theorem create_sprite_32x32_scenario (s : Host) :
    (run_create_sprite conformingNewFile 32 32 "RGB" s).2 =
      ["Created new sprite: 32x32 (RGB)", "Active sprite now has 1 layer(s)"] ∧
    strContains
      (String.intercalate "\n" (run_create_sprite conformingNewFile 32 32 "RGB" s).2)
      "32x32" ∧
    strContains
      (String.intercalate "\n" (run_create_sprite conformingNewFile 32 32 "RGB" s).2)
      "RGB" := by
  refine ⟨run_create_sprite_32 s, ?_, ?_⟩
  · rw [run_create_sprite_32]
    exact ⟨"Created new sprite: ", " (RGB)\nActive sprite now has 1 layer(s)", by decide⟩
  · rw [run_create_sprite_32]
    exact ⟨"Created new sprite: 32x32 (", ")\nActive sprite now has 1 layer(s)", by decide⟩

/-! ## C6 and C10: delete_layer -/

/-- C6: the delete-layer script checks the index against
`[0, layerCount)`; an in-range index with exactly one layer left is
refused with a non-error message and no state change; otherwise the
script invokes the host's remove-layer primitive and reports the layer
count read back from the host afterwards (one less whenever the active
index is valid). -/
theorem delete_layer_spec (s : Host) (sp : Sprite) (idx : Int)
    (hsp : s.activeSprite = some sp) :
    (¬(0 ≤ idx ∧ idx < (sp.layerCount : Int)) →
      run_delete_layer idx s =
        (s, ["Layer number " ++ toString idx ++ " is out of range (0-"
               ++ toString ((sp.layerCount : Int) - 1) ++ ")"])) ∧
    ((0 ≤ idx ∧ idx < (sp.layerCount : Int)) → sp.layerCount = 1 →
      run_delete_layer idx s = (s, ["Cannot delete the only remaining layer"])) ∧
    ((0 ≤ idx ∧ idx < (sp.layerCount : Int)) → 1 < sp.layerCount →
      run_delete_layer idx s =
        ({ s with activeSprite := some (removeLayerCmd s.activeLayerNumber sp) },
         ["Deleted layer " ++ toString idx ++ ": \"" ++ (sp.layer idx.toNat).name ++ "\"",
          "Sprite now has "
            ++ toString (removeLayerCmd s.activeLayerNumber sp).layerCount
            ++ " layer(s)"])) ∧
    (s.activeLayerNumber < sp.layerCount →
      (removeLayerCmd s.activeLayerNumber sp).layerCount = sp.layerCount - 1) := by
  refine ⟨?_, ?_, ?_, ?_⟩
  · intro h
    simp only [run_delete_layer, hsp, if_neg h]
  · intro h h1
    simp only [run_delete_layer, hsp, if_pos h, if_pos (by omega : sp.layerCount ≤ 1)]
  · intro h h1
    simp only [run_delete_layer, hsp, if_pos h, if_neg (by omega : ¬ sp.layerCount ≤ 1)]
  · intro h
    simp only [removeLayerCmd, Sprite.layerCount] at h ⊢
    exact List.length_eraseIdx_of_lt h

/-- One-layer host used as concrete witness input. -/
def wSpriteOne : Sprite := ⟨3, 3, "RGB", [⟨"Background", true, true⟩]⟩

/-- Host holding only `wSpriteOne`. -/
def wHostOne : Host := ⟨some wSpriteOne, none, 0, 0⟩

/-- Witness for C6: deleting index 0 on a single-layer document is
refused and changes nothing. -/
theorem delete_layer_spec_witness :
    ((0 ≤ (0 : Int) ∧ (0 : Int) < (wSpriteOne.layerCount : Int)) ∧
      wSpriteOne.layerCount = 1) ∧
    run_delete_layer 0 wHostOne = (wHostOne, ["Cannot delete the only remaining layer"]) :=
  ⟨⟨by decide, by decide⟩,
   (delete_layer_spec wHostOne wSpriteOne 0 rfl).2.1 (by decide) (by decide)⟩

/-- C10: for an in-range index on a multi-layer document, the script
calls `RemoveLayer` without selecting the indexed layer first, so the
layer removed is the one at `app.activeLayerNumber`; the name in the
report is read from the layer at the requested index, which (when the
active index differs from it) is still present afterwards. -/
theorem delete_layer_removes_active_layer (s : Host) (sp : Sprite) (idx : Int)
    (hsp : s.activeSprite = some sp) (h : 0 ≤ idx ∧ idx < (sp.layerCount : Int))
    (hmany : 1 < sp.layerCount) :
    ((run_delete_layer idx s).1.activeSprite =
      some { sp with layers := sp.layers.eraseIdx s.activeLayerNumber }) ∧
    ((run_delete_layer idx s).2.head? =
      some ("Deleted layer " ++ toString idx ++ ": \"" ++ (sp.layer idx.toNat).name ++ "\"")) ∧
    (s.activeLayerNumber ≠ idx.toNat →
      sp.layer idx.toNat ∈ sp.layers.eraseIdx s.activeLayerNumber) := by
  have hne : ¬ sp.layerCount ≤ 1 := by omega
  refine ⟨?_, ?_, ?_⟩
  · simp only [run_delete_layer, hsp, if_pos h, if_neg hne, removeLayerCmd]
  · simp only [run_delete_layer, hsp, if_pos h, if_neg hne, List.head?]
  · intro hdiff
    have hidx : idx.toNat < sp.layers.length := by
      have := h.2; have := h.1
      simp only [Sprite.layerCount] at *
      omega
    have hval : sp.layer idx.toNat = sp.layers[idx.toNat] :=
      List.getD_eq_getElem sp.layers _ hidx
    rw [hval, List.mem_eraseIdx_iff_getElem]
    exact ⟨idx.toNat, hidx, fun hc => hdiff hc.symm, rfl⟩

/-- Three-layer host whose active layer (index 2, "C") differs from the
index the witness requests (0, "A"). -/
def wSprite3 : Sprite :=
  ⟨4, 4, "RGB", [⟨"A", true, true⟩, ⟨"B", true, true⟩, ⟨"C", false, true⟩]⟩

/-- Host holding `wSprite3` with active layer 2. -/
def wHost3 : Host := ⟨some wSprite3, none, 2, 0⟩

/-- Witness for C10: requesting deletion of index 0 removes layer 2
("C", the active one) while the output names "A", which is still
there. -/
theorem delete_layer_removes_active_layer_witness :
    ((0 ≤ (0 : Int) ∧ (0 : Int) < (wSprite3.layerCount : Int)) ∧ 1 < wSprite3.layerCount) ∧
    (run_delete_layer 0 wHost3).1.activeSprite =
      some { wSprite3 with layers := wSprite3.layers.eraseIdx 2 } ∧
    (run_delete_layer 0 wHost3).2.head? = some "Deleted layer 0: \"A\"" ∧
    wSprite3.layer 0 ∈ wSprite3.layers.eraseIdx 2 := by
  refine ⟨⟨by decide, by decide⟩, ?_, ?_, ?_⟩
  · exact (delete_layer_removes_active_layer wHost3 wSprite3 0 rfl
      ⟨by decide, by decide⟩ (by decide)).1
  · rw [(delete_layer_removes_active_layer wHost3 wSprite3 0 rfl
      ⟨by decide, by decide⟩ (by decide)).2.1]
    decide
  · exact (delete_layer_removes_active_layer wHost3 wSprite3 0 rfl
      ⟨by decide, by decide⟩ (by decide)).2.2 (by decide)

/-! ## C3: replace_color -/

theorem mem_coordsRowMajor (w h : Nat) (p : Int × Int) :
    p ∈ coordsRowMajor w h ↔
      0 ≤ p.1 ∧ p.1 < (w : Int) ∧ 0 ≤ p.2 ∧ p.2 < (h : Int) := by
  constructor
  · intro hp
    obtain ⟨yy, hyy, hmem⟩ := List.mem_flatMap.mp hp
    obtain ⟨xx, hxx, heq⟩ := List.mem_map.mp hmem
    rw [List.mem_range] at hyy hxx
    subst heq
    simp only [Int.ofNat_eq_coe]
    omega
  · rintro ⟨h1, h2, h3, h4⟩
    refine List.mem_flatMap.mpr ⟨p.2.toNat, List.mem_range.mpr (by omega),
      List.mem_map.mpr ⟨p.1.toNat, List.mem_range.mpr (by omega), ?_⟩⟩
    obtain ⟨px, py⟩ := p
    simp only [Int.ofNat_eq_coe] at *
    simp only [Prod.mk.injEq]
    omega

theorem coordsRowMajor_nodup (w h : Nat) : (coordsRowMajor w h).Nodup := by
  unfold coordsRowMajor
  rw [List.nodup_flatMap]
  constructor
  · intro yy _
    refine List.Nodup.map ?_ (List.nodup_range w)
    intro a b hab
    simpa using congrArg Prod.fst hab
  · refine (List.pairwise_lt_range h).imp ?_
    intro a b hab q hqa hqb
    obtain ⟨xa, _, hxa⟩ := List.mem_map.mp hqa
    obtain ⟨xb, _, hxb⟩ := List.mem_map.mp hqb
    have h1 := congrArg Prod.snd hxa
    have h2 := congrArg Prod.snd hxb
    simp only [Int.ofNat_eq_coe] at h1 h2
    omega

theorem replaceLoop_spec (mr mg mb nc : Nat) (l : List (Int × Int)) :
    ∀ (img : Image) (n : Nat), l.Nodup →
      ((replaceLoop mr mg mb nc l img n).1.width = img.width ∧
       (replaceLoop mr mg mb nc l img n).1.height = img.height) ∧
      (∀ p : Int × Int, p ∈ l →
        (replaceLoop mr mg mb nc l img n).1.pix p.1 p.2 =
          if replaceMatch mr mg mb (img.pix p.1 p.2) then nc else img.pix p.1 p.2) ∧
      (∀ p : Int × Int, p ∉ l →
        (replaceLoop mr mg mb nc l img n).1.pix p.1 p.2 = img.pix p.1 p.2) ∧
      (replaceLoop mr mg mb nc l img n).2 =
        n + (l.filter (fun p => replaceMatch mr mg mb (img.pix p.1 p.2))).length := by
  induction l with
  | nil => intro img n _; simp [replaceLoop]
  | cons hd tl ih =>
    intro img n hnd
    obtain ⟨hhd, htl⟩ := List.nodup_cons.mp hnd
    obtain ⟨hx, hy⟩ := hd
    have hpixne : ∀ p : Int × Int, p ≠ (hx, hy) →
        (img.putPixel hx hy nc).pix p.1 p.2 = img.pix p.1 p.2 := by
      intro p hp
      refine Image.pix_putPixel_ne _ _ _ _ _ _ (fun hc => hp ?_)
      exact Prod.ext hc.1 hc.2
    by_cases hm : replaceMatch mr mg mb (img.getPixel hx hy)
    · have hstep : replaceLoop mr mg mb nc ((hx, hy) :: tl) img n =
          replaceLoop mr mg mb nc tl (img.putPixel hx hy nc) (n + 1) := by
        simp [replaceLoop, hm]
      obtain ⟨⟨hw, hh⟩, hmem, hnotmem, hcnt⟩ := ih (img.putPixel hx hy nc) (n + 1) htl
      rw [hstep]
      refine ⟨⟨by simp [hw], by simp [hh]⟩, ?_, ?_, ?_⟩
      · intro p hp
        rcases List.mem_cons.mp hp with hcase | hcase
        · subst hcase
          rw [hnotmem _ hhd, Image.pix_putPixel_self]
          simp only [Image.getPixel] at hm
          rw [if_pos hm]
        · rw [hmem p hcase, hpixne p (fun hc => hhd (hc ▸ hcase))]
      · intro p hp
        have h1 : p ∉ tl := fun hc => hp (List.mem_cons_of_mem _ hc)
        have h2 : p ≠ (hx, hy) := fun hc => hp (hc ▸ List.mem_cons_self _ _)
        rw [hnotmem p h1, hpixne p h2]
      · rw [hcnt]
        have : tl.filter (fun p => replaceMatch mr mg mb ((img.putPixel hx hy nc).pix p.1 p.2)) =
            tl.filter (fun p => replaceMatch mr mg mb (img.pix p.1 p.2)) := by
          refine List.filter_congr (fun p hp => ?_)
          rw [hpixne p (fun hc => hhd (hc ▸ hp))]
        rw [this]
        simp only [Image.getPixel] at hm
        rw [List.filter_cons_of_pos (by simpa using hm)]
        simp [Nat.add_comm, Nat.add_assoc, Nat.add_left_comm]
    · have hstep : replaceLoop mr mg mb nc ((hx, hy) :: tl) img n =
          replaceLoop mr mg mb nc tl img n := by
        simp [replaceLoop, hm]
      obtain ⟨⟨hw, hh⟩, hmem, hnotmem, hcnt⟩ := ih img n htl
      rw [hstep]
      refine ⟨⟨hw, hh⟩, ?_, ?_, ?_⟩
      · intro p hp
        rcases List.mem_cons.mp hp with hcase | hcase
        · subst hcase
          simp only [Image.getPixel] at hm
          rw [hnotmem _ hhd, if_neg (by simpa using hm)]
        · exact hmem p hcase
      · intro p hp
        exact hnotmem p (fun hc => hp (List.mem_cons_of_mem _ hc))
      · rw [hcnt]
        simp only [Image.getPixel] at hm
        rw [List.filter_cons_of_neg (by simpa using hm)]

theorem replaceMatch_iff (a b c d : Nat) :
    replaceMatch a b c d = true ↔ (rgbaR d = a ∧ rgbaG d = b ∧ rgbaB d = c) := by
  simp [replaceMatch, and_assoc]

theorem filter_coords_card (img : Image) (pred : Int × Int → Bool) :
    ((coordsRowMajor img.width img.height).filter pred).length =
      (img.grid.filter (fun p => pred p = true)).card := by
  rw [← List.toFinset_card_of_nodup (List.Nodup.filter pred (coordsRowMajor_nodup _ _)),
    List.toFinset_filter]
  congr 1
  ext q
  simp only [Finset.mem_filter, List.mem_toFinset, mem_coordsRowMajor,
    Image.mem_grid, Image.inB_iff]

/-- C3: the replace-color script visits every surface pixel (row-major by
construction of `coordsRowMajor`), rewrites exactly those whose
red/green/blue channels equal the old color's — the existing alpha is
ignored, so a pixel with the old RGB under any alpha is still replaced —
to the new color including its alpha, and reports the number of matching
pixels. -/
theorem replace_color_spec (s : Host) (sp : Sprite) (img : Image)
    (old_r old_g old_b new_r new_g new_b new_a : Nat)
    (hsp : s.activeSprite = some sp) (himg : s.activeImage = some img)
    (hr : old_r < 256) (hg : old_g < 256) (hb : old_b < 256) :
    ∃ img2 : Image,
      (run_replace_color old_r old_g old_b new_r new_g new_b new_a s).1 =
        { s with activeImage := some img2 } ∧
      (∀ x y : Int, img.inB x y = true →
        img2.pix x y =
          if rgbaR (img.pix x y) = old_r ∧ rgbaG (img.pix x y) = old_g ∧
              rgbaB (img.pix x y) = old_b
          then rgba new_r new_g new_b new_a else img.pix x y) ∧
      (∀ x y : Int, ¬ img.inB x y = true → img2.pix x y = img.pix x y) ∧
      (∀ x y : Int, ∀ a2 : Nat, img.inB x y = true → a2 < 256 →
        img.pix x y = rgba old_r old_g old_b a2 →
        img2.pix x y = rgba new_r new_g new_b new_a) ∧
      (run_replace_color old_r old_g old_b new_r new_g new_b new_a s).2 =
        ["Replaced "
           ++ toString ((img.grid.filter (fun p =>
                 replaceMatch old_r old_g old_b (img.pix p.1 p.2) = true)).card)
           ++ " pixels from rgba(" ++ toString old_r ++ "," ++ toString old_g ++ ","
           ++ toString old_b ++ ",*) to rgba(" ++ toString new_r ++ ","
           ++ toString new_g ++ "," ++ toString new_b ++ "," ++ toString new_a
           ++ ")"] := by
  obtain ⟨⟨hw, hh⟩, hmem, hnotmem, hcnt⟩ :=
    replaceLoop_spec old_r old_g old_b (rgba new_r new_g new_b new_a)
      (coordsRowMajor img.width img.height) img 0 (coordsRowMajor_nodup _ _)
  refine ⟨(replaceLoop old_r old_g old_b (rgba new_r new_g new_b new_a)
      (coordsRowMajor img.width img.height) img 0).1, ?_, ?_, ?_, ?_, ?_⟩
  · simp only [run_replace_color, hsp, himg]
  · intro x y hin
    have hmem' := hmem (x, y) (by
      rw [mem_coordsRowMajor]
      exact (Image.inB_iff img x y).mp hin)
    by_cases hm : replaceMatch old_r old_g old_b (img.pix x y) = true
    · rw [hmem', if_pos hm, if_pos ((replaceMatch_iff _ _ _ _).mp hm)]
    · rw [hmem', if_neg hm, if_neg (fun hc => hm ((replaceMatch_iff _ _ _ _).mpr hc))]
  · intro x y hin
    exact hnotmem (x, y) (fun hc => hin (by
      rw [Image.inB_iff]
      exact (mem_coordsRowMajor _ _ _).mp hc))
  · intro x y a2 hin ha2 hpx
    have hmem' := hmem (x, y) (by
      rw [mem_coordsRowMajor]
      exact (Image.inB_iff img x y).mp hin)
    rw [hmem', if_pos ((replaceMatch_iff _ _ _ _).mpr (by
      rw [hpx, rgbaR_rgba _ _ _ _ hr, rgbaG_rgba _ _ _ _ hr hg,
        rgbaB_rgba _ _ _ _ hr hg hb]
      exact ⟨rfl, rfl, rfl⟩))]
  · simp only [run_replace_color, hsp, himg]
    rw [hcnt, Nat.zero_add, filter_coords_card]

/-- Two-pixel surface: `(0,0)` holds the old RGB under alpha 7, `(1,0)`
something else. -/
def wImgRC : Image :=
  ⟨2, 1, fun x y => if x = 0 ∧ y = 0 then rgba 10 20 30 7 else rgba 9 9 9 255⟩

/-- Host holding `wImgRC`. -/
def wHostRC : Host := ⟨some wSpriteOne, some wImgRC, 0, 0⟩

/-- Witness for C3: the pixel with old RGB but alpha 7 is still replaced,
and the surrounding state is exactly an image update. -/
theorem replace_color_spec_witness :
    ∃ img2 : Image,
      (run_replace_color 10 20 30 1 2 3 40 wHostRC).1 =
        { wHostRC with activeImage := some img2 } ∧
      img2.pix 0 0 = rgba 1 2 3 40 := by
  obtain ⟨img2, heq, _, _, halpha, _⟩ :=
    replace_color_spec wHostRC wSpriteOne wImgRC 10 20 30 1 2 3 40 rfl rfl
      (by decide) (by decide) (by decide)
  exact ⟨img2, heq, halpha 0 0 7 (by decide) (by decide) (by decide)⟩
theorem foldl_write_spec {α : Type} (c : Nat) (step : Image → α → Image)
    (P : α → Int → Int → Prop) [∀ t u v, Decidable (P t u v)]
    (hstep : ∀ img t, ((step img t).width = img.width ∧ (step img t).height = img.height) ∧
      ∀ u v, (step img t).pix u v = if P t u v ∧ img.inB u v = true then c else img.pix u v) :
    ∀ (l : List α) (img : Image),
      ((l.foldl step img).width = img.width ∧ (l.foldl step img).height = img.height) ∧
      ∀ u v, (l.foldl step img).pix u v =
        if (∃ t ∈ l, P t u v) ∧ img.inB u v = true then c else img.pix u v := by
  intro l
  induction l with
  | nil => intro img; simp
  | cons hd tl ih =>
    intro img
    simp only [List.foldl_cons]
    obtain ⟨⟨hw1, hh1⟩, hpix1⟩ := hstep img hd
    obtain ⟨⟨hw2, hh2⟩, hpix2⟩ := ih (step img hd)
    refine ⟨⟨by rw [hw2, hw1], by rw [hh2, hh1]⟩, ?_⟩
    intro u v
    have hB : (step img hd).inB u v = img.inB u v := by
      simp [Image.inB, hw1, hh1]
    rw [hpix2 u v, hB, hpix1 u v]
    by_cases hin : img.inB u v = true <;> by_cases hP : P hd u v <;>
      by_cases hE : ∃ t ∈ tl, P t u v <;>
      simp [hin, hP, hE, List.exists_mem_cons_iff]

theorem topBotStep_spec (c : Nat) (y yb : Int) (img : Image) (px : Int) :
    (((topBotStep c y yb img px).width = img.width ∧
      (topBotStep c y yb img px).height = img.height) ∧
     ∀ u v, (topBotStep c y yb img px).pix u v =
       if (u = px ∧ (v = y ∨ v = yb)) ∧ img.inB u v = true then c
       else img.pix u v) := by
  unfold topBotStep
  by_cases hcol : 0 ≤ px ∧ px < (img.width : Int)
  · rw [if_pos hcol]
    by_cases hy : 0 ≤ y ∧ y < (img.height : Int)
    · rw [if_pos hy]
      by_cases hyb : 0 ≤ yb ∧ yb < ((img.putPixel px y c).height : Int)
      · rw [if_pos hyb]
        refine ⟨⟨rfl, rfl⟩, fun u v => ?_⟩
        simp only [Image.pix_putPixel]
        by_cases h1 : u = px ∧ v = yb
        · rw [if_pos h1, if_pos ⟨⟨h1.1, Or.inr h1.2⟩, by
            rw [Image.inB_iff]; obtain ⟨rfl, rfl⟩ := h1
            exact ⟨hcol.1, hcol.2, hyb.1, hyb.2⟩⟩]
        · rw [if_neg h1]
          by_cases h2 : u = px ∧ v = y
          · rw [if_pos h2, if_pos ⟨⟨h2.1, Or.inl h2.2⟩, by
              rw [Image.inB_iff]; obtain ⟨rfl, rfl⟩ := h2
              exact ⟨hcol.1, hcol.2, hy.1, hy.2⟩⟩]
          · rw [if_neg h2, if_neg ?_]
            rintro ⟨⟨hu, hv⟩, hin⟩
            rcases hv with hv | hv
            · exact h2 ⟨hu, hv⟩
            · exact h1 ⟨hu, hv⟩
      · rw [if_neg hyb]
        refine ⟨⟨rfl, rfl⟩, fun u v => ?_⟩
        simp only [Image.pix_putPixel]
        by_cases h2 : u = px ∧ v = y
        · rw [if_pos h2, if_pos ⟨⟨h2.1, Or.inl h2.2⟩, by
            rw [Image.inB_iff]; obtain ⟨rfl, rfl⟩ := h2
            exact ⟨hcol.1, hcol.2, hy.1, hy.2⟩⟩]
        · rw [if_neg h2, if_neg ?_]
          rintro ⟨⟨hu, hv⟩, hin⟩
          rw [Image.inB_iff] at hin
          rcases hv with hv | hv
          · exact h2 ⟨hu, hv⟩
          · exact hyb (by subst hu; subst hv; exact ⟨hin.2.2.1, hin.2.2.2⟩)
    · rw [if_neg hy]
      by_cases hyb : 0 ≤ yb ∧ yb < (img.height : Int)
      · rw [if_pos hyb]
        refine ⟨⟨rfl, rfl⟩, fun u v => ?_⟩
        simp only [Image.pix_putPixel]
        by_cases h1 : u = px ∧ v = yb
        · rw [if_pos h1, if_pos ⟨⟨h1.1, Or.inr h1.2⟩, by
            rw [Image.inB_iff]; obtain ⟨rfl, rfl⟩ := h1
            exact ⟨hcol.1, hcol.2, hyb.1, hyb.2⟩⟩]
        · rw [if_neg h1, if_neg ?_]
          rintro ⟨⟨hu, hv⟩, hin⟩
          rw [Image.inB_iff] at hin
          rcases hv with hv | hv
          · exact hy (by subst hu; subst hv; exact ⟨hin.2.2.1, hin.2.2.2⟩)
          · exact h1 ⟨hu, hv⟩
      · rw [if_neg hyb]
        refine ⟨⟨rfl, rfl⟩, fun u v => ?_⟩
        rw [if_neg ?_]
        rintro ⟨⟨hu, hv⟩, hin⟩
        rw [Image.inB_iff] at hin
        rcases hv with hv | hv
        · exact hy (by subst hu; subst hv; exact ⟨hin.2.2.1, hin.2.2.2⟩)
        · exact hyb (by subst hu; subst hv; exact ⟨hin.2.2.1, hin.2.2.2⟩)
  · rw [if_neg hcol]
    refine ⟨⟨rfl, rfl⟩, fun u v => ?_⟩
    rw [if_neg ?_]
    rintro ⟨⟨hu, hv⟩, hin⟩
    rw [Image.inB_iff] at hin
    exact hcol (by subst hu; exact ⟨hin.1, hin.2.1⟩)

theorem leftRightStep_spec (c : Nat) (x xr : Int) (img : Image) (py : Int) :
    (((leftRightStep c x xr img py).width = img.width ∧
      (leftRightStep c x xr img py).height = img.height) ∧
     ∀ u v, (leftRightStep c x xr img py).pix u v =
       if (v = py ∧ (u = x ∨ u = xr)) ∧ img.inB u v = true then c
       else img.pix u v) := by
  unfold leftRightStep
  by_cases hrow : 0 ≤ py ∧ py < (img.height : Int)
  · rw [if_pos hrow]
    by_cases hx : 0 ≤ x ∧ x < (img.width : Int)
    · rw [if_pos hx]
      by_cases hxr : 0 ≤ xr ∧ xr < ((img.putPixel x py c).width : Int)
      · rw [if_pos hxr]
        refine ⟨⟨rfl, rfl⟩, fun u v => ?_⟩
        simp only [Image.pix_putPixel]
        by_cases h1 : u = xr ∧ v = py
        · rw [if_pos h1, if_pos ⟨⟨h1.2, Or.inr h1.1⟩, by
            rw [Image.inB_iff]; obtain ⟨rfl, rfl⟩ := h1
            exact ⟨hxr.1, hxr.2, hrow.1, hrow.2⟩⟩]
        · rw [if_neg h1]
          by_cases h2 : u = x ∧ v = py
          · rw [if_pos h2, if_pos ⟨⟨h2.2, Or.inl h2.1⟩, by
              rw [Image.inB_iff]; obtain ⟨rfl, rfl⟩ := h2
              exact ⟨hx.1, hx.2, hrow.1, hrow.2⟩⟩]
          · rw [if_neg h2, if_neg ?_]
            rintro ⟨⟨hv, hu⟩, hin⟩
            rcases hu with hu | hu
            · exact h2 ⟨hu, hv⟩
            · exact h1 ⟨hu, hv⟩
      · rw [if_neg hxr]
        refine ⟨⟨rfl, rfl⟩, fun u v => ?_⟩
        simp only [Image.pix_putPixel]
        by_cases h2 : u = x ∧ v = py
        · rw [if_pos h2, if_pos ⟨⟨h2.2, Or.inl h2.1⟩, by
            rw [Image.inB_iff]; obtain ⟨rfl, rfl⟩ := h2
            exact ⟨hx.1, hx.2, hrow.1, hrow.2⟩⟩]
        · rw [if_neg h2, if_neg ?_]
          rintro ⟨⟨hv, hu⟩, hin⟩
          rw [Image.inB_iff] at hin
          rcases hu with hu | hu
          · exact h2 ⟨hu, hv⟩
          · exact hxr (by subst hu; subst hv; exact ⟨hin.1, hin.2.1⟩)
    · rw [if_neg hx]
      by_cases hxr : 0 ≤ xr ∧ xr < (img.width : Int)
      · rw [if_pos hxr]
        refine ⟨⟨rfl, rfl⟩, fun u v => ?_⟩
        simp only [Image.pix_putPixel]
        by_cases h1 : u = xr ∧ v = py
        · rw [if_pos h1, if_pos ⟨⟨h1.2, Or.inr h1.1⟩, by
            rw [Image.inB_iff]; obtain ⟨rfl, rfl⟩ := h1
            exact ⟨hxr.1, hxr.2, hrow.1, hrow.2⟩⟩]
        · rw [if_neg h1, if_neg ?_]
          rintro ⟨⟨hv, hu⟩, hin⟩
          rw [Image.inB_iff] at hin
          rcases hu with hu | hu
          · exact hx (by subst hu; subst hv; exact ⟨hin.1, hin.2.1⟩)
          · exact h1 ⟨hu, hv⟩
      · rw [if_neg hxr]
        refine ⟨⟨rfl, rfl⟩, fun u v => ?_⟩
        rw [if_neg ?_]
        rintro ⟨⟨hv, hu⟩, hin⟩
        rw [Image.inB_iff] at hin
        rcases hu with hu | hu
        · exact hx (by subst hu; subst hv; exact ⟨hin.1, hin.2.1⟩)
        · exact hxr (by subst hu; subst hv; exact ⟨hin.1, hin.2.1⟩)
  · rw [if_neg hrow]
    refine ⟨⟨rfl, rfl⟩, fun u v => ?_⟩
    rw [if_neg ?_]
    rintro ⟨⟨hv, hu⟩, hin⟩
    rw [Image.inB_iff] at hin
    exact hrow (by subst hv; exact ⟨hin.2.2.1, hin.2.2.2⟩)

theorem mem_xsRange (x : Int) (w : Nat) (u : Int) :
    u ∈ xsRange x w ↔ x ≤ u ∧ u < x + w := by
  simp only [xsRange, List.mem_map, List.mem_range, Int.ofNat_eq_coe]
  constructor
  · rintro ⟨i, hi, rfl⟩
    omega
  · rintro ⟨h1, h2⟩
    exact ⟨(u - x).toNat, by omega, by omega⟩

/-- The border of the `w × h` rectangle at `(x, y)`: top row, bottom row,
left column, right column. -/
def borderSet (x y : Int) (w h : Nat) : Finset (Int × Int) :=
  (Finset.Icc x (x + w - 1) ×ˢ ({y, y + h - 1} : Finset Int)) ∪
  (({x, x + w - 1} : Finset Int) ×ˢ Finset.Icc y (y + h - 1))

theorem mem_borderSet (x y : Int) (w h : Nat) (p : Int × Int) :
    p ∈ borderSet x y w h ↔
      ((x ≤ p.1 ∧ p.1 ≤ x + w - 1) ∧ (p.2 = y ∨ p.2 = y + h - 1)) ∨
      ((p.1 = x ∨ p.1 = x + w - 1) ∧ (y ≤ p.2 ∧ p.2 ≤ y + h - 1)) := by
  simp [borderSet, Finset.mem_union, Finset.mem_product, Finset.mem_Icc,
    Finset.mem_insert, Finset.mem_singleton]

theorem borderSet_card (x y : Int) (w h : Nat) (hw : 2 ≤ w) (hh : 2 ≤ h) :
    (borderSet x y w h).card = 2 * w + 2 * h - 4 := by
  have hIccW : (Finset.Icc x (x + w - 1)).card = w := by
    rw [Int.card_Icc]; omega
  have hIccH : (Finset.Icc y (y + h - 1)).card = h := by
    rw [Int.card_Icc]; omega
  have hPairY : ({y, y + h - 1} : Finset Int).card = 2 := by
    rw [Finset.card_insert_of_not_mem (by simp; omega), Finset.card_singleton]
  have hPairX : ({x, x + w - 1} : Finset Int).card = 2 := by
    rw [Finset.card_insert_of_not_mem (by simp; omega), Finset.card_singleton]
  have hA : (Finset.Icc x (x + w - 1) ×ˢ ({y, y + h - 1} : Finset Int)).card = w * 2 := by
    rw [Finset.card_product, hIccW, hPairY]
  have hB : (({x, x + w - 1} : Finset Int) ×ˢ Finset.Icc y (y + h - 1)).card = 2 * h := by
    rw [Finset.card_product, hPairX, hIccH]
  have hInter :
      (Finset.Icc x (x + w - 1) ×ˢ ({y, y + h - 1} : Finset Int)) ∩
        (({x, x + w - 1} : Finset Int) ×ˢ Finset.Icc y (y + h - 1)) =
      ({x, x + w - 1} : Finset Int) ×ˢ ({y, y + h - 1} : Finset Int) := by
    ext p
    simp only [Finset.mem_inter, Finset.mem_product, Finset.mem_Icc,
      Finset.mem_insert, Finset.mem_singleton]
    omega
  have hIcard : (({x, x + w - 1} : Finset Int) ×ˢ ({y, y + h - 1} : Finset Int)).card = 4 := by
    rw [Finset.card_product, hPairX, hPairY]
  have := Finset.card_union_add_card_inter
    (Finset.Icc x (x + w - 1) ×ˢ ({y, y + h - 1} : Finset Int))
    (({x, x + w - 1} : Finset Int) ×ˢ Finset.Icc y (y + h - 1))
  rw [hInter, hIcard, hA, hB] at this
  unfold borderSet
  omega

/-- C4: the outline branch of `draw_rectangle` writes exactly the
bounds-clipped border of the `w × h` rectangle, whose full size is
`2w + 2h - 4` distinct pixels for `w, h ≥ 2`. -/
theorem draw_rectangle_outline_spec (s : Host) (sp : Sprite) (img : Image)
    (x y : Int) (width height r g b a : Nat)
    (hsp : s.activeSprite = some sp) (himg : s.activeImage = some img)
    (hw : 2 ≤ width) (hh : 2 ≤ height) :
    ∃ img2 : Image,
      (run_draw_rectangle x y width height r g b a false s).1 =
        { s with activeImage := some img2 } ∧
      (∀ u v : Int, img2.pix u v =
        if (u, v) ∈ borderSet x y width height ∧ img.inB u v = true
        then rgba r g b a else img.pix u v) ∧
      (borderSet x y width height).card = 2 * width + 2 * height - 4 := by
  obtain ⟨⟨hw1, hh1⟩, hpix1⟩ := foldl_write_spec (rgba r g b a)
    (topBotStep (rgba r g b a) y (y + height - 1))
    (fun px u v => u = px ∧ (v = y ∨ v = y + height - 1))
    (fun img0 px => topBotStep_spec (rgba r g b a) y (y + height - 1) img0 px)
    (xsRange x width) img
  obtain ⟨⟨hw2, hh2⟩, hpix2⟩ := foldl_write_spec (rgba r g b a)
    (leftRightStep (rgba r g b a) x (x + width - 1))
    (fun py u v => v = py ∧ (u = x ∨ u = x + width - 1))
    (fun img0 py => leftRightStep_spec (rgba r g b a) x (x + width - 1) img0 py)
    (xsRange y height)
    ((xsRange x width).foldl (topBotStep (rgba r g b a) y (y + height - 1)) img)
  refine ⟨(xsRange y height).foldl (leftRightStep (rgba r g b a) x (x + width - 1))
      ((xsRange x width).foldl (topBotStep (rgba r g b a) y (y + height - 1)) img),
    ?_, ?_, borderSet_card x y width height hw hh⟩
  · simp only [run_draw_rectangle, hsp, himg, Bool.false_eq_true, if_false]
  · intro u v
    have hBeq :
        ((xsRange x width).foldl (topBotStep (rgba r g b a) y (y + height - 1)) img).inB u v
          = img.inB u v := by
      simp [Image.inB, hw1, hh1]
    rw [hpix2 u v, hBeq, hpix1 u v]
    have hTBiff : (∃ px ∈ xsRange x width, u = px ∧ (v = y ∨ v = y + height - 1)) ↔
        ((x ≤ u ∧ u ≤ x + width - 1) ∧ (v = y ∨ v = y + height - 1)) := by
      constructor
      · rintro ⟨px, hpx, rfl, hv⟩
        rw [mem_xsRange] at hpx
        exact ⟨⟨hpx.1, by omega⟩, hv⟩
      · rintro ⟨⟨h1, h2⟩, hv⟩
        exact ⟨u, (mem_xsRange _ _ _).mpr ⟨h1, by omega⟩, rfl, hv⟩
    have hLRiff : (∃ py ∈ xsRange y height, v = py ∧ (u = x ∨ u = x + width - 1)) ↔
        ((u = x ∨ u = x + width - 1) ∧ (y ≤ v ∧ v ≤ y + height - 1)) := by
      constructor
      · rintro ⟨py, hpy, rfl, hu⟩
        rw [mem_xsRange] at hpy
        exact ⟨hu, ⟨hpy.1, by omega⟩⟩
      · rintro ⟨hu, ⟨h1, h2⟩⟩
        exact ⟨v, (mem_xsRange _ _ _).mpr ⟨h1, by omega⟩, rfl, hu⟩
    simp only [hTBiff, hLRiff]
    by_cases hin : img.inB u v = true <;>
      by_cases h1 : ((x ≤ u ∧ u ≤ x + width - 1) ∧ (v = y ∨ v = y + height - 1)) <;>
      by_cases h2 : ((u = x ∨ u = x + width - 1) ∧ (y ≤ v ∧ v ≤ y + height - 1)) <;>
      simp [hin, h1, h2, mem_borderSet]

/-- Blank 10×10 surface. -/
def wImg10 : Image := ⟨10, 10, fun _ _ => 0⟩

/-- Host holding `wImg10`. -/
def wHost10 : Host := ⟨some wSpriteOne, some wImg10, 0, 0⟩

/-- Witness for C4: the 4×5 outline at (2,3) on a 10×10 surface colors a
border corner, leaves the interior alone, and its border has
`2·4 + 2·5 - 4 = 14` pixels. -/
theorem draw_rectangle_outline_spec_witness :
    ((2 : Nat) ≤ 4 ∧ (2 : Nat) ≤ 5) ∧
    ∃ img2 : Image,
      (run_draw_rectangle 2 3 4 5 9 8 7 6 false wHost10).1 =
        { wHost10 with activeImage := some img2 } ∧
      img2.pix 2 3 = rgba 9 8 7 6 ∧ img2.pix 3 4 = 0 ∧
      (borderSet 2 3 4 5).card = 2 * 4 + 2 * 5 - 4 := by
  obtain ⟨img2, heq, hpix, hcard⟩ := draw_rectangle_outline_spec wHost10 wSpriteOne
    wImg10 2 3 4 5 9 8 7 6 rfl rfl (by decide) (by decide)
  refine ⟨⟨by decide, by decide⟩, img2, heq, ?_, ?_, hcard⟩
  · rw [hpix 2 3, if_pos ⟨by decide, by decide⟩]
  · rw [hpix 3 4, if_neg (by rintro ⟨hmem, _⟩; revert hmem; decide)]
    rfl

/-! ## C5: draw_line -/

theorem bresPoints_ne_nil (x2 y2 dx dy sx sy : Int) (fuel : Nat) (x y err : Int) :
    bresPoints x2 y2 dx dy sx sy fuel x y err ≠ [] := by
  cases fuel with
  | zero => simp [bresPoints]
  | succ n => simp only [bresPoints]; split <;> simp

theorem bresPoints_head? (x2 y2 dx dy sx sy : Int) (fuel : Nat) (x y err : Int) :
    (bresPoints x2 y2 dx dy sx sy fuel x y err).head? = some (x, y) := by
  cases fuel with
  | zero => simp [bresPoints]
  | succ n => simp only [bresPoints]; split <;> simp

theorem getLast?_cons_of_ne_nil {α : Type} (a : α) (l : List α) (h : l ≠ []) :
    (a :: l).getLast? = l.getLast? := by
  cases l with
  | nil => exact absurd rfl h
  | cons b t => simp [List.getLast?_cons_cons]

theorem bresPoints_last (x2 y2 dx dy sx sy : Int)
    (hdx : 0 ≤ dx) (hdy : 0 ≤ dy)
    (hsx : sx = 1 ∨ sx = -1) (hsy : sy = 1 ∨ sy = -1) :
    ∀ (fuel : Nat) (rx ry : Int), 0 ≤ rx → rx ≤ dx → 0 ≤ ry → ry ≤ dy →
      rx + ry < fuel →
      (bresPoints x2 y2 dx dy sx sy fuel (x2 - sx * rx) (y2 - sy * ry)
        (dx - dy - (dx - rx) * dy + (dy - ry) * dx)).getLast? = some (x2, y2) := by
  intro fuel
  induction fuel with
  | zero => intro rx ry h1 h2 h3 h4 h5; omega
  | succ fuel ih =>
    intro rx ry h1 h2 h3 h4 h5
    by_cases hend : rx = 0 ∧ ry = 0
    · obtain ⟨rfl, rfl⟩ := hend
      simp [bresPoints]
    · have hxyne : ¬(x2 - sx * rx = x2 ∧ y2 - sy * ry = y2) := by
        rintro ⟨hx, hy⟩
        apply hend
        constructor
        · rcases hsx with rfl | rfl <;> omega
        · rcases hsy with rfl | rfl <;> omega
      simp only [bresPoints, if_neg hxyne]
      set err := dx - dy - (dx - rx) * dy + (dy - ry) * dx with herr
      by_cases hc1 : 2 * err > -dy <;> by_cases hc2 : 2 * err < dx
      · -- both step
        have hrx : 0 < rx := by
          by_contra hrx0
          have hrx0 : rx = 0 := by omega
          subst hrx0
          have : err = dx - dy - ry * dx := by rw [herr]; ring
          have hry : 0 < ry := by
            by_contra hry0
            exact hend ⟨rfl, by omega⟩
          nlinarith [mul_nonneg (by omega : (0:Int) ≤ ry - 1) hdx]
        have hry : 0 < ry := by
          by_contra hry0
          have hry0 : ry = 0 := by omega
          subst hry0
          have : err = dx - dy + rx * dy := by rw [herr]; ring
          nlinarith [mul_nonneg (by omega : (0:Int) ≤ rx - 1) hdy]
        rw [if_pos hc1, if_pos hc2]
        simp only
        rw [getLast?_cons_of_ne_nil _ _ (bresPoints_ne_nil _ _ _ _ _ _ _ _ _ _)]
        have hx' : x2 - sx * rx + sx = x2 - sx * (rx - 1) := by ring
        have hy' : y2 - sy * ry + sy = y2 - sy * (ry - 1) := by ring
        have he' : err - dy + dx = dx - dy - (dx - (rx - 1)) * dy + (dy - (ry - 1)) * dx := by
          rw [herr]; ring
        rw [hx', hy', he']
        exact ih (rx - 1) (ry - 1) (by omega) (by omega) (by omega) (by omega) (by omega)
      · -- x steps only
        have hrx : 0 < rx := by
          by_contra hrx0
          have hrx0 : rx = 0 := by omega
          subst hrx0
          have hry : 0 < ry := by
            by_contra hry0
            exact hend ⟨rfl, by omega⟩
          have : err = dx - dy - ry * dx := by rw [herr]; ring
          nlinarith [mul_nonneg (by omega : (0:Int) ≤ ry - 1) hdx]
        rw [if_pos hc1, if_neg hc2]
        simp only
        rw [getLast?_cons_of_ne_nil _ _ (bresPoints_ne_nil _ _ _ _ _ _ _ _ _ _)]
        have hx' : x2 - sx * rx + sx = x2 - sx * (rx - 1) := by ring
        have he' : err - dy = dx - dy - (dx - (rx - 1)) * dy + (dy - ry) * dx := by
          rw [herr]; ring
        rw [hx', he']
        exact ih (rx - 1) ry (by omega) (by omega) (by omega) (by omega) (by omega)
      · -- y steps only
        have hry : 0 < ry := by
          by_contra hry0
          have hry0 : ry = 0 := by omega
          subst hry0
          have hrx : 0 < rx := by
            by_contra hrx0
            exact hend ⟨by omega, rfl⟩
          have : err = dx - dy + rx * dy := by rw [herr]; ring
          nlinarith [mul_nonneg (by omega : (0:Int) ≤ rx - 1) hdy]
        rw [if_neg hc1, if_pos hc2]
        simp only
        rw [getLast?_cons_of_ne_nil _ _ (bresPoints_ne_nil _ _ _ _ _ _ _ _ _ _)]
        have hy' : y2 - sy * ry + sy = y2 - sy * (ry - 1) := by ring
        have he' : err + dx = dx - dy - (dx - rx) * dy + (dy - (ry - 1)) * dx := by
          rw [herr]; ring
        rw [hy', he']
        exact ih rx (ry - 1) (by omega) (by omega) (by omega) (by omega) (by omega)
      · -- neither: impossible
        exfalso
        have : dx ≤ 2 * err := by omega
        have : 2 * err ≤ -dy := by omega
        have hdx0 : dx = 0 := by omega
        have hdy0 : dy = 0 := by omega
        exact hend ⟨by omega, by omega⟩

theorem mem_discOffsets (t : Nat) (z : Int) :
    z ∈ discOffsets t ↔ -((t / 2 : Nat) : Int) ≤ z ∧ z ≤ ((t / 2 : Nat) : Int) := by
  simp only [discOffsets, List.mem_map, List.mem_range, Int.ofNat_eq_coe]
  constructor
  · rintro ⟨i, hi, rfl⟩
    omega
  · rintro ⟨h1, h2⟩
    exact ⟨(z + (t / 2 : Nat)).toNat, by omega, by omega⟩

theorem stampInner_spec (c t : Nat) (q : Int × Int) (ty : Int) (im2 : Image) (tx : Int) :
    ((((fun im2 tx =>
        if im2.inB (q.1 + tx) (q.2 + ty) = true then
          if stampCond t tx ty = true then im2.putPixel (q.1 + tx) (q.2 + ty) c else im2
        else im2) im2 tx : Image).width = im2.width ∧
      ((fun im2 tx =>
        if im2.inB (q.1 + tx) (q.2 + ty) = true then
          if stampCond t tx ty = true then im2.putPixel (q.1 + tx) (q.2 + ty) c else im2
        else im2) im2 tx : Image).height = im2.height) ∧
     ∀ u v, ((fun im2 tx =>
        if im2.inB (q.1 + tx) (q.2 + ty) = true then
          if stampCond t tx ty = true then im2.putPixel (q.1 + tx) (q.2 + ty) c else im2
        else im2) im2 tx : Image).pix u v =
       if (u = q.1 + tx ∧ v = q.2 + ty ∧ stampCond t tx ty = true) ∧ im2.inB u v = true
       then c else im2.pix u v) := by
  simp only
  by_cases hb : im2.inB (q.1 + tx) (q.2 + ty) = true
  · rw [if_pos hb]
    by_cases hc : stampCond t tx ty = true
    · rw [if_pos hc]
      refine ⟨⟨rfl, rfl⟩, fun u v => ?_⟩
      rw [Image.pix_putPixel]
      by_cases h1 : u = q.1 + tx ∧ v = q.2 + ty
      · rw [if_pos h1, if_pos ⟨⟨h1.1, h1.2, hc⟩, by
          obtain ⟨rfl, rfl⟩ := h1
          exact hb⟩]
      · rw [if_neg h1, if_neg (fun hcon => h1 ⟨hcon.1.1, hcon.1.2.1⟩)]
    · rw [if_neg hc]
      refine ⟨⟨rfl, rfl⟩, fun u v => ?_⟩
      rw [if_neg (fun hcon => hc hcon.1.2.2)]
  · rw [if_neg hb]
    refine ⟨⟨rfl, rfl⟩, fun u v => ?_⟩
    rw [if_neg ?_]
    rintro ⟨⟨rfl, rfl, _⟩, hin⟩
    exact hb hin

theorem stampDisc_spec (c t : Nat) (img : Image) (q : Int × Int) :
    (((stampDisc c t img q).width = img.width ∧
      (stampDisc c t img q).height = img.height) ∧
     ∀ u v, (stampDisc c t img q).pix u v =
       if (∃ ty ∈ discOffsets t, ∃ tx ∈ discOffsets t,
            u = q.1 + tx ∧ v = q.2 + ty ∧ stampCond t tx ty = true) ∧
          img.inB u v = true
       then c else img.pix u v) := by
  unfold stampDisc
  exact foldl_write_spec c _
    (fun ty u v => ∃ tx ∈ discOffsets t, u = q.1 + tx ∧ v = q.2 + ty ∧ stampCond t tx ty = true)
    (fun img0 ty => foldl_write_spec c _
      (fun tx u v => u = q.1 + tx ∧ v = q.2 + ty ∧ stampCond t tx ty = true)
      (fun im2 tx => stampInner_spec c t q ty im2 tx)
      (discOffsets t) img0)
    (discOffsets t) img

theorem offs_of_sq (t : Nat) (tx ty : Int)
    (h : 4 * (tx * tx + ty * ty) ≤ (t : Int) * t) :
    tx ∈ discOffsets t ∧ ty ∈ discOffsets t := by
  have h1 : 2 * |tx| ≤ (t : Int) := by
    by_contra hlt
    push_neg at hlt
    nlinarith [abs_nonneg tx, sq_abs tx, mul_self_nonneg ty]
  have h2 : 2 * |ty| ≤ (t : Int) := by
    by_contra hlt
    push_neg at hlt
    nlinarith [abs_nonneg ty, sq_abs ty, mul_self_nonneg tx]
  rw [mem_discOffsets, mem_discOffsets]
  rcases abs_cases tx with ⟨hx, _⟩ | ⟨hx, _⟩ <;>
    rcases abs_cases ty with ⟨hy, _⟩ | ⟨hy, _⟩ <;>
    constructor <;> constructor <;> omega

/-- C5: the line script stamps exactly along `bresPoints`, the embedded
integer Bresenham walk (which starts at `(x1,y1)` and, with the fuel the
script's meaning uses, provably ends at `(x2,y2)`): single pixels for
thickness 1, the disc `4(tx² + ty²) ≤ thickness²` of offsets for larger
thickness, every stamp bounds-checked. -/
theorem draw_line_spec (s : Host) (sp : Sprite) (img : Image)
    (x1 y1 x2 y2 : Int) (r g b a thickness : Nat)
    (hsp : s.activeSprite = some sp) (himg : s.activeImage = some img) :
    ∃ img2 : Image,
      (run_draw_line x1 y1 x2 y2 r g b a thickness s).1 =
        { s with activeImage := some img2 } ∧
      (bresPoints x2 y2 ((x2 - x1).natAbs) ((y2 - y1).natAbs)
          (if x1 < x2 then 1 else -1) (if y1 < y2 then 1 else -1)
          ((((x2 - x1).natAbs : Int) + ((y2 - y1).natAbs : Int)).toNat + 1)
          x1 y1 (((x2 - x1).natAbs : Int) - ((y2 - y1).natAbs : Int))).head? =
        some (x1, y1) ∧
      (bresPoints x2 y2 ((x2 - x1).natAbs) ((y2 - y1).natAbs)
          (if x1 < x2 then 1 else -1) (if y1 < y2 then 1 else -1)
          ((((x2 - x1).natAbs : Int) + ((y2 - y1).natAbs : Int)).toNat + 1)
          x1 y1 (((x2 - x1).natAbs : Int) - ((y2 - y1).natAbs : Int))).getLast? =
        some (x2, y2) ∧
      (thickness = 1 →
        ∀ u v : Int, img2.pix u v =
          if (u, v) ∈ bresPoints x2 y2 ((x2 - x1).natAbs) ((y2 - y1).natAbs)
              (if x1 < x2 then 1 else -1) (if y1 < y2 then 1 else -1)
              ((((x2 - x1).natAbs : Int) + ((y2 - y1).natAbs : Int)).toNat + 1)
              x1 y1 (((x2 - x1).natAbs : Int) - ((y2 - y1).natAbs : Int)) ∧
             img.inB u v = true
          then rgba r g b a else img.pix u v) ∧
      (1 < thickness →
        ∀ u v : Int,
          ((∃ q ∈ bresPoints x2 y2 ((x2 - x1).natAbs) ((y2 - y1).natAbs)
                (if x1 < x2 then 1 else -1) (if y1 < y2 then 1 else -1)
                ((((x2 - x1).natAbs : Int) + ((y2 - y1).natAbs : Int)).toNat + 1)
                x1 y1 (((x2 - x1).natAbs : Int) - ((y2 - y1).natAbs : Int)),
              ∃ tx ty : Int, 4 * (tx * tx + ty * ty) ≤ (thickness : Int) * thickness ∧
                u = q.1 + tx ∧ v = q.2 + ty) ∧ img.inB u v = true →
            img2.pix u v = rgba r g b a) ∧
          (¬ ((∃ q ∈ bresPoints x2 y2 ((x2 - x1).natAbs) ((y2 - y1).natAbs)
                (if x1 < x2 then 1 else -1) (if y1 < y2 then 1 else -1)
                ((((x2 - x1).natAbs : Int) + ((y2 - y1).natAbs : Int)).toNat + 1)
                x1 y1 (((x2 - x1).natAbs : Int) - ((y2 - y1).natAbs : Int)),
              ∃ tx ty : Int, 4 * (tx * tx + ty * ty) ≤ (thickness : Int) * thickness ∧
                u = q.1 + tx ∧ v = q.2 + ty) ∧ img.inB u v = true) →
            img2.pix u v = img.pix u v)) := by
  obtain ⟨⟨hwF, hhF⟩, hpixF⟩ := foldl_write_spec (rgba r g b a)
    (stampDisc (rgba r g b a) thickness)
    (fun q u v => ∃ ty ∈ discOffsets thickness, ∃ tx ∈ discOffsets thickness,
      u = q.1 + tx ∧ v = q.2 + ty ∧ stampCond thickness tx ty = true)
    (fun img0 q => stampDisc_spec (rgba r g b a) thickness img0 q)
    (bresPoints x2 y2 ((x2 - x1).natAbs) ((y2 - y1).natAbs)
      (if x1 < x2 then 1 else -1) (if y1 < y2 then 1 else -1)
      ((((x2 - x1).natAbs : Int) + ((y2 - y1).natAbs : Int)).toNat + 1)
      x1 y1 (((x2 - x1).natAbs : Int) - ((y2 - y1).natAbs : Int))) img
  refine ⟨(bresPoints x2 y2 ((x2 - x1).natAbs) ((y2 - y1).natAbs)
      (if x1 < x2 then 1 else -1) (if y1 < y2 then 1 else -1)
      ((((x2 - x1).natAbs : Int) + ((y2 - y1).natAbs : Int)).toNat + 1)
      x1 y1 (((x2 - x1).natAbs : Int) - ((y2 - y1).natAbs : Int))).foldl
        (stampDisc (rgba r g b a) thickness) img,
    ?_, bresPoints_head? _ _ _ _ _ _ _ _ _ _, ?_, ?_, ?_⟩
  · simp only [run_draw_line, hsp, himg]
  · have hlast := bresPoints_last x2 y2 ((x2 - x1).natAbs) ((y2 - y1).natAbs)
      (if x1 < x2 then 1 else -1) (if y1 < y2 then 1 else -1)
      (by positivity) (by positivity)
      (by split <;> simp) (by split <;> simp)
      ((((x2 - x1).natAbs : Int) + ((y2 - y1).natAbs : Int)).toNat + 1)
      ((x2 - x1).natAbs) ((y2 - y1).natAbs)
      (by positivity) le_rfl (by positivity) le_rfl (by omega)
    have hx0 : x2 - (if x1 < x2 then (1:Int) else -1) * ((x2 - x1).natAbs) = x1 := by
      split <;> omega
    have hy0 : y2 - (if y1 < y2 then (1:Int) else -1) * ((y2 - y1).natAbs) = y1 := by
      split <;> omega
    have he0 : (((x2 - x1).natAbs : Int) - ((y2 - y1).natAbs : Int)) =
        (((x2 - x1).natAbs : Int) - ((y2 - y1).natAbs : Int) -
          (((x2 - x1).natAbs : Int) - ((x2 - x1).natAbs : Int)) * ((y2 - y1).natAbs : Int) +
          ((((y2 - y1).natAbs : Int)) - (((y2 - y1).natAbs : Int))) * ((x2 - x1).natAbs : Int)) := by
      ring
    rw [hx0, hy0] at hlast
    rw [he0]
    exact hlast
  · intro ht1 u v
    subst ht1
    rw [hpixF u v]
    have : (∃ t_1 ∈ bresPoints x2 y2 ((x2 - x1).natAbs) ((y2 - y1).natAbs)
          (if x1 < x2 then 1 else -1) (if y1 < y2 then 1 else -1)
          ((((x2 - x1).natAbs : Int) + ((y2 - y1).natAbs : Int)).toNat + 1)
          x1 y1 (((x2 - x1).natAbs : Int) - ((y2 - y1).natAbs : Int)),
        ∃ ty ∈ discOffsets 1, ∃ tx ∈ discOffsets 1,
          u = t_1.1 + tx ∧ v = t_1.2 + ty ∧ stampCond 1 tx ty = true) ↔
        ((u, v) ∈ bresPoints x2 y2 ((x2 - x1).natAbs) ((y2 - y1).natAbs)
          (if x1 < x2 then 1 else -1) (if y1 < y2 then 1 else -1)
          ((((x2 - x1).natAbs : Int) + ((y2 - y1).natAbs : Int)).toNat + 1)
          x1 y1 (((x2 - x1).natAbs : Int) - ((y2 - y1).natAbs : Int))) := by
      constructor
      · rintro ⟨q, hq, ty, hty, tx, htx, rfl, rfl, _⟩
        rw [mem_discOffsets] at hty htx
        have htx0 : tx = 0 := by omega
        have hty0 : ty = 0 := by omega
        subst htx0; subst hty0
        simpa using hq
      · intro hq
        exact ⟨(u, v), hq, 0, by rw [mem_discOffsets]; omega,
          0, by rw [mem_discOffsets]; omega, by simp, by simp, by simp [stampCond]⟩
    simp only [this]
  · intro ht1
    have hne1 : thickness ≠ 1 := by omega
    intro u v
    constructor
    · rintro ⟨⟨q, hq, tx, ty, hle, rfl, rfl⟩, hin⟩
      rw [hpixF _ _]
      rw [if_pos ⟨⟨q, hq, ty, (offs_of_sq _ _ _ hle).2, tx, (offs_of_sq _ _ _ hle).1,
        rfl, rfl, by simp [stampCond, hle]⟩, hin⟩]
    · intro hncond
      rw [hpixF _ _]
      rw [if_neg ?_]
      rintro ⟨⟨q, hq, ty, hty, tx, htx, rfl, rfl, hcond⟩, hin⟩
      apply hncond
      refine ⟨⟨q, hq, tx, ty, ?_, rfl, rfl⟩, hin⟩
      simp only [stampCond, Bool.or_eq_true, decide_eq_true_iff] at hcond
      rcases hcond with hcond | hcond
      · exact absurd hcond hne1
      · exact hcond

/-- Witness for C5: the thickness-1 line (0,0)–(5,3) on a 10×10 surface
starts and ends at its endpoints, colors its start pixel, and leaves
off-path pixels alone. -/
theorem draw_line_spec_witness :
    ∃ img2 : Image,
      (run_draw_line 0 0 5 3 1 2 3 4 1 wHost10).1 =
        { wHost10 with activeImage := some img2 } ∧
      (bresPoints 5 3 ((5 - 0 : Int).natAbs) ((3 - 0 : Int).natAbs)
          (if (0:Int) < 5 then 1 else -1) (if (0:Int) < 3 then 1 else -1)
          ((((5 - 0 : Int).natAbs : Int) + ((3 - 0 : Int).natAbs : Int)).toNat + 1)
          0 0 (((5 - 0 : Int).natAbs : Int) - ((3 - 0 : Int).natAbs : Int))).head? =
        some (0, 0) ∧
      (bresPoints 5 3 ((5 - 0 : Int).natAbs) ((3 - 0 : Int).natAbs)
          (if (0:Int) < 5 then 1 else -1) (if (0:Int) < 3 then 1 else -1)
          ((((5 - 0 : Int).natAbs : Int) + ((3 - 0 : Int).natAbs : Int)).toNat + 1)
          0 0 (((5 - 0 : Int).natAbs : Int) - ((3 - 0 : Int).natAbs : Int))).getLast? =
        some (5, 3) ∧
      img2.pix 0 0 = rgba 1 2 3 4 ∧ img2.pix 5 0 = 0 := by
  obtain ⟨img2, heq, hhead, hlast, hthin, _⟩ :=
    draw_line_spec wHost10 wSpriteOne wImg10 0 0 5 3 1 2 3 4 1 rfl rfl
  refine ⟨img2, heq, hhead, hlast, ?_, ?_⟩
  · rw [hthin rfl 0 0, if_pos ⟨by decide, by decide⟩]
  · rw [hthin rfl 5 0, if_neg (by decide)]
    rfl

/-! ## C2: flood_fill

The spec-side notion: the 4-connected target-colored region containing
the seed, as reachability through in-bounds pixels of the target
color. -/

/-- 4-connectivity: `q` is an axis-neighbor of `p`. -/
def Adj (p q : Int × Int) : Prop :=
  q = (p.1 + 1, p.2) ∨ q = (p.1 - 1, p.2) ∨ q = (p.1, p.2 + 1) ∨ q = (p.1, p.2 - 1)

/-- A 4-connected path from `s` to `p` through in-bounds pixels of color
`target`; `PathTo img target s` carves out the region the flood fill is
meant to paint. -/
inductive PathTo (img : Image) (target : Nat) : (Int × Int) → (Int × Int) → Prop
  | refl (p : Int × Int) (hin : img.inB p.1 p.2 = true)
      (hc : img.pix p.1 p.2 = target) : PathTo img target p p
  | cons (p q r : Int × Int) (hin : img.inB p.1 p.2 = true)
      (hc : img.pix p.1 p.2 = target) (hadj : Adj p q)
      (htail : PathTo img target q r) : PathTo img target p r

theorem PathTo.start_ok {img : Image} {t : Nat} {s p : Int × Int}
    (h : PathTo img t s p) : img.inB s.1 s.2 = true ∧ img.pix s.1 s.2 = t := by
  cases h with
  | refl p hin hc => exact ⟨hin, hc⟩
  | cons p q r hin hc hadj htail => exact ⟨hin, hc⟩

theorem PathTo.snoc {img : Image} {t : Nat} {s p r : Int × Int}
    (h : PathTo img t s p) (hadj : Adj p r) (hin : img.inB r.1 r.2 = true)
    (hc : img.pix r.1 r.2 = t) : PathTo img t s r := by
  induction h with
  | refl p hin0 hc0 => exact PathTo.cons p r r hin0 hc0 hadj (PathTo.refl r hin hc)
  | cons p q r0 hin0 hc0 hadj0 htail ih => exact PathTo.cons p q r hin0 hc0 hadj0 (ih hadj)

/-- Writing `fill ≠ t` over one pixel `w` cuts every target path at `w`:
the path survives, ended at `w`, or restarts at a neighbor of `w`. -/
theorem PathTo.remove {img : Image} {t : Nat} (fill : Nat) (w : Int × Int)
    {s p : Int × Int} (h : PathTo img t s p) :
    PathTo (img.putPixel w.1 w.2 fill) t s p ∨ p = w ∨
      ∃ r, Adj w r ∧ PathTo (img.putPixel w.1 w.2 fill) t r p := by
  induction h with
  | refl p hin hc =>
    by_cases hpw : p = w
    · exact Or.inr (Or.inl hpw)
    · refine Or.inl (PathTo.refl p (by simpa using hin) ?_)
      rw [Image.pix_putPixel_ne _ _ _ _ _ _
        (fun hc2 => hpw (Prod.ext hc2.1 hc2.2))]
      exact hc
  | cons p q r hin hc hadj htail ih =>
    rcases ih with hih | hih | ⟨r2, hadj2, hp⟩
    · by_cases hpw : p = w
      · subst hpw
        exact Or.inr (Or.inr ⟨q, hadj, hih⟩)
      · refine Or.inl (PathTo.cons p q r (by simpa using hin) ?_ hadj hih)
        rw [Image.pix_putPixel_ne _ _ _ _ _ _
          (fun hc2 => hpw (Prod.ext hc2.1 hc2.2))]
        exact hc
    · exact Or.inr (Or.inl hih)
    · exact Or.inr (Or.inr ⟨r2, hadj2, hp⟩)

theorem grid_putPixel (img : Image) (x y : Int) (c : Nat) :
    (img.putPixel x y c).grid = img.grid := rfl

theorem tcount_putPixel (img : Image) (x y : Int) (t fill : Nat)
    (hin : img.inB x y = true) (hpx : img.pix x y = t) (hne : fill ≠ t) :
    tcount (img.putPixel x y fill) t = tcount img t - 1 ∧ 1 ≤ tcount img t := by
  have hmem : (x, y) ∈ img.grid.filter (fun p => img.pix p.1 p.2 = t) := by
    rw [Finset.mem_filter]
    exact ⟨(Image.mem_grid img (x, y)).mpr hin, hpx⟩
  have hfe : (img.putPixel x y fill).grid.filter
        (fun p => (img.putPixel x y fill).pix p.1 p.2 = t) =
      (img.grid.filter (fun p => img.pix p.1 p.2 = t)).erase (x, y) := by
    rw [grid_putPixel]
    ext p
    rw [Finset.mem_filter, Finset.mem_erase, Finset.mem_filter]
    by_cases hp : p = (x, y)
    · subst hp
      simp only [Image.pix_putPixel_self]
      constructor
      · rintro ⟨_, hfill⟩
        exact absurd hfill hne
      · rintro ⟨hne2, _⟩
        exact absurd rfl hne2
    · rw [Image.pix_putPixel_ne _ _ _ _ _ _
        (fun hc2 => hp (Prod.ext hc2.1 hc2.2))]
      constructor
      · rintro ⟨hg, hc⟩
        exact ⟨hp, hg, hc⟩
      · rintro ⟨_, hg, hc⟩
        exact ⟨hg, hc⟩
  constructor
  · rw [tcount, hfe, Finset.card_erase_of_mem hmem]
    rfl
  · exact Finset.card_pos.mpr ⟨(x, y), hmem⟩

/-- Number of pixels of `img` differing from `orig` (on `orig`'s grid):
the count the flood fill reports. -/
def changedCount (orig img : Image) : Nat :=
  (orig.grid.filter (fun p => img.pix p.1 p.2 ≠ orig.pix p.1 p.2)).card

theorem changedCount_putPixel (orig img : Image) (x y : Int) (fill : Nat)
    (hin : orig.inB x y = true) (hunch : img.pix x y = orig.pix x y)
    (hneq : fill ≠ orig.pix x y) :
    changedCount orig (img.putPixel x y fill) = changedCount orig img + 1 := by
  have hnm : (x, y) ∉ orig.grid.filter (fun p => img.pix p.1 p.2 ≠ orig.pix p.1 p.2) := by
    rw [Finset.mem_filter]
    rintro ⟨_, hch⟩
    exact hch hunch
  have hfe : orig.grid.filter
        (fun p => (img.putPixel x y fill).pix p.1 p.2 ≠ orig.pix p.1 p.2) =
      insert (x, y) (orig.grid.filter (fun p => img.pix p.1 p.2 ≠ orig.pix p.1 p.2)) := by
    ext p
    rw [Finset.mem_filter, Finset.mem_insert, Finset.mem_filter]
    by_cases hp : p = (x, y)
    · subst hp
      simp [Image.pix_putPixel_self, hneq, (Image.mem_grid orig (x, y)).mpr hin]
    · rw [Image.pix_putPixel_ne _ _ _ _ _ _
        (fun hc2 => hp (Prod.ext hc2.1 hc2.2))]
      constructor
      · intro h
        exact Or.inr h
      · rintro (h | h)
        · exact absurd h hp
        · exact h
  rw [changedCount, hfe, Finset.card_insert_of_not_mem hnm]
  rfl

/-- Invariant lemma for the flood-fill loop: starting from any state
whose stack and writes are sound and complete for the region of `seed`
in `orig` (and with fuel at least the termination measure
`5·tcount + stack length`), the loop ends with exactly the region
painted `fill` and the reported count equal to the number of changed
pixels. -/
theorem floodLoop_spec (orig : Image) (target fill : Nat) (seed : Int × Int)
    (hne : fill ≠ target) :
    ∀ (fuel : Nat) (img : Image) (stack : List (Int × Int)) (n : Nat),
      img.width = orig.width → img.height = orig.height →
      5 * tcount img target + stack.length ≤ fuel →
      (∀ p : Int × Int, img.pix p.1 p.2 = orig.pix p.1 p.2 ∨
        (PathTo orig target seed p ∧ img.pix p.1 p.2 = fill)) →
      (∀ q ∈ stack, q = seed ∨
        ∃ p, PathTo orig target seed p ∧ img.pix p.1 p.2 = fill ∧ Adj p q) →
      (∀ p : Int × Int, PathTo orig target seed p →
        img.pix p.1 p.2 = fill ∨ ∃ q ∈ stack, PathTo img target q p) →
      n = changedCount orig img →
      ((floodLoop target fill fuel img stack n).1.width = orig.width ∧
       (floodLoop target fill fuel img stack n).1.height = orig.height) ∧
      (∀ p : Int × Int,
        (floodLoop target fill fuel img stack n).1.pix p.1 p.2 = orig.pix p.1 p.2 ∨
        (PathTo orig target seed p ∧
          (floodLoop target fill fuel img stack n).1.pix p.1 p.2 = fill)) ∧
      (∀ p : Int × Int, PathTo orig target seed p →
        (floodLoop target fill fuel img stack n).1.pix p.1 p.2 = fill) ∧
      (floodLoop target fill fuel img stack n).2 =
        changedCount orig (floodLoop target fill fuel img stack n).1 := by
  intro fuel
  induction fuel with
  | zero =>
    intro img stack n hw hh hfuel hsound hstack hfront hcnt
    have hnil : stack = [] := List.length_eq_zero.mp (by omega)
    subst hnil
    simp only [floodLoop]
    refine ⟨⟨hw, hh⟩, hsound, ?_, hcnt⟩
    intro p hp
    rcases hfront p hp with hfill | ⟨q, hq, _⟩
    · exact hfill
    · exact absurd hq (List.not_mem_nil q)
  | succ fuel ih =>
    intro img stack n hw hh hfuel hsound hstack hfront hcnt
    match stack with
    | [] =>
      simp only [floodLoop]
      refine ⟨⟨hw, hh⟩, hsound, ?_, hcnt⟩
      intro p hp
      rcases hfront p hp with hfill | ⟨q, hq, _⟩
      · exact hfill
      · exact absurd hq (List.not_mem_nil q)
    | (x, y) :: rest =>
      have hinB_eq : ∀ u v : Int, img.inB u v = orig.inB u v := by
        intro u v
        simp [Image.inB, hw, hh]
      by_cases hb : img.inB x y = false
      · -- skip: out of bounds
        have hstep : floodLoop target fill (fuel + 1) img ((x, y) :: rest) n =
            floodLoop target fill fuel img rest n := by
          simp only [floodLoop, if_pos hb]
        rw [hstep]
        refine ih img rest n hw hh (by simp at hfuel ⊢; omega) hsound
          (fun q hq => hstack q (List.mem_cons_of_mem _ hq)) ?_ hcnt
        intro p hp
        rcases hfront p hp with hfill | ⟨q, hq, hpath⟩
        · exact Or.inl hfill
        · rcases List.mem_cons.mp hq with rfl | hq2
          · exact absurd hpath.start_ok.1 (by rw [hb]; simp)
          · exact Or.inr ⟨q, hq2, hpath⟩
      · -- in bounds
        rw [Bool.not_eq_false] at hb
        by_cases hcol : img.getPixel x y ≠ target
        · -- skip: wrong color
          have hb2 : ¬(img.inB x y = false) := by rw [hb]; simp
          have hstep : floodLoop target fill (fuel + 1) img ((x, y) :: rest) n =
              floodLoop target fill fuel img rest n := by
            simp only [floodLoop, if_neg hb2, if_pos hcol]
          rw [hstep]
          refine ih img rest n hw hh (by simp at hfuel ⊢; omega) hsound
            (fun q hq => hstack q (List.mem_cons_of_mem _ hq)) ?_ hcnt
          intro p hp
          rcases hfront p hp with hfill | ⟨q, hq, hpath⟩
          · exact Or.inl hfill
          · rcases List.mem_cons.mp hq with rfl | hq2
            · exact absurd hpath.start_ok.2 hcol
            · exact Or.inr ⟨q, hq2, hpath⟩
        · -- write case
          rw [not_not] at hcol
          have hpx : img.pix x y = target := hcol
          have horig : orig.pix x y = target := by
            rcases hsound (x, y) with hsame | ⟨_, hfill2⟩
            · rw [← hsame]; exact hpx
            · exact absurd (hfill2 ▸ hpx) hne
          have hoin : orig.inB x y = true := by rw [← hinB_eq]; exact hb
          have hR : PathTo orig target seed (x, y) := by
            rcases hstack (x, y) (List.mem_cons_self _ _) with rfl | ⟨p, hp, hpfill, hadj⟩
            · exact PathTo.refl _ hoin horig
            · exact hp.snoc hadj hoin horig
          have hb2 : ¬(img.inB x y = false) := by rw [hb]; simp
          have hcol2 : ¬(img.getPixel x y ≠ target) := not_not.mpr hcol
          have hstep : floodLoop target fill (fuel + 1) img ((x, y) :: rest) n =
              floodLoop target fill fuel (img.putPixel x y fill)
                ((x, y - 1) :: (x, y + 1) :: (x - 1, y) :: (x + 1, y) :: rest) (n + 1) := by
            simp only [floodLoop, if_neg hb2, if_neg hcol2]
          rw [hstep]
          obtain ⟨htdec, htpos⟩ := tcount_putPixel img x y target fill hb hpx hne
          have hpixne : ∀ p : Int × Int, p ≠ (x, y) →
              (img.putPixel x y fill).pix p.1 p.2 = img.pix p.1 p.2 := by
            intro p hp
            exact Image.pix_putPixel_ne _ _ _ _ _ _
              (fun hc2 => hp (Prod.ext hc2.1 hc2.2))
          refine ih (img.putPixel x y fill) _ (n + 1) (by simpa using hw)
            (by simpa using hh) ?_ ?_ ?_ ?_ ?_
          · simp only [List.length_cons] at hfuel ⊢
            omega
          · -- soundness
            intro p
            by_cases hp : p = (x, y)
            · subst hp
              exact Or.inr ⟨hR, Image.pix_putPixel_self _ _ _ _⟩
            · rw [hpixne p hp]
              exact hsound p
          · -- stack invariant
            intro q hq
            have hself : (img.putPixel x y fill).pix x y = fill :=
              Image.pix_putPixel_self _ _ _ _
            simp only [List.mem_cons] at hq
            rcases hq with rfl | rfl | rfl | rfl | hq
            · exact Or.inr ⟨(x, y), hR, hself, Or.inr (Or.inr (Or.inr rfl))⟩
            · exact Or.inr ⟨(x, y), hR, hself, Or.inr (Or.inr (Or.inl rfl))⟩
            · exact Or.inr ⟨(x, y), hR, hself, Or.inr (Or.inl rfl)⟩
            · exact Or.inr ⟨(x, y), hR, hself, Or.inl rfl⟩
            · rcases hstack q (List.mem_cons_of_mem _ hq) with rfl | ⟨p, hp, hpfill, hadj⟩
              · exact Or.inl rfl
              · refine Or.inr ⟨p, hp, ?_, hadj⟩
                by_cases hpxy : p = (x, y)
                · subst hpxy
                  exact Image.pix_putPixel_self _ _ _ _
                · rw [hpixne p hpxy]
                  exact hpfill
          · -- frontier
            intro p hp
            rcases hfront p hp with hfill | ⟨q, hq, hpath⟩
            · left
              by_cases hpxy : p = (x, y)
              · subst hpxy
                exact Image.pix_putPixel_self _ _ _ _
              · rw [hpixne p hpxy]
                exact hfill
            · rcases PathTo.remove fill (x, y) hpath with hsurv | rfl | ⟨r, hadj, hr⟩
              · rcases List.mem_cons.mp hq with rfl | hq2
                · have := hsurv.start_ok.2
                  rw [Image.pix_putPixel_self] at this
                  exact absurd this hne
                · exact Or.inr ⟨q, by simp [List.mem_cons, hq2], hsurv⟩
              · exact Or.inl (Image.pix_putPixel_self _ _ _ _)
              · refine Or.inr ⟨r, ?_, hr⟩
                rcases hadj with rfl | rfl | rfl | rfl <;> simp [List.mem_cons]
          · -- count
            rw [hcnt, changedCount_putPixel orig img x y fill hoin
              (by rw [hpx, horig]) (by rw [horig]; exact hne)]

theorem PathTo.end_ok {img : Image} {t : Nat} {s p : Int × Int}
    (h : PathTo img t s p) : img.inB p.1 p.2 = true ∧ img.pix p.1 p.2 = t := by
  induction h with
  | refl p hin hc => exact ⟨hin, hc⟩
  | cons p q r hin hc hadj htail ih => exact ih

/-- C2: the flood-fill script bounds-checks the seed; a seed already of
the fill color short-circuits with a no-op message and no writes;
otherwise the stack-based 4-connected fill paints exactly the
target-colored region `PathTo` of the seed and reports the number of
pixels changed. -/
theorem flood_fill_spec (s : Host) (sp : Sprite) (img : Image) (x y : Int)
    (r g b a : Nat) (hsp : s.activeSprite = some sp)
    (himg : s.activeImage = some img) :
    (img.inB x y = false →
      run_flood_fill x y r g b a s =
        (s, ["Start coordinates (" ++ toString x ++ "," ++ toString y
               ++ ") are out of bounds"])) ∧
    (img.inB x y = true → img.getPixel x y = rgba r g b a →
      run_flood_fill x y r g b a s =
        (s, ["Target color is the same as fill color, no action needed"])) ∧
    (img.inB x y = true → img.getPixel x y ≠ rgba r g b a →
      ∃ img2 : Image,
        (run_flood_fill x y r g b a s).1 = { s with activeImage := some img2 } ∧
        (∀ p : Int × Int, PathTo img (img.getPixel x y) (x, y) p →
          img2.pix p.1 p.2 = rgba r g b a) ∧
        (∀ p : Int × Int, ¬ PathTo img (img.getPixel x y) (x, y) p →
          img2.pix p.1 p.2 = img.pix p.1 p.2) ∧
        (run_flood_fill x y r g b a s).2 =
          ["Flood fill completed at (" ++ toString x ++ "," ++ toString y
             ++ "), filled " ++ toString (changedCount img img2) ++ " pixels"]) := by
  refine ⟨?_, ?_, ?_⟩
  · intro hoob
    have hoob2 : ¬(img.inB x y = true) := by rw [hoob]; simp
    simp only [run_flood_fill, hsp, himg, if_neg hoob2]
  · intro hin heq
    simp only [run_flood_fill, hsp, himg, if_pos hin, if_pos heq]
  · intro hin hneq
    have hne : rgba r g b a ≠ img.getPixel x y := fun hc => hneq hc.symm
    obtain ⟨⟨hw2, hh2⟩, hsound2, hfill2, hcnt2⟩ :=
      floodLoop_spec img (img.getPixel x y) (rgba r g b a) (x, y) hne
        (5 * tcount img (img.getPixel x y) + 1) img [(x, y)] 0 rfl rfl
        (by simp)
        (fun p => Or.inl rfl)
        (fun q hq => Or.inl (by simpa using hq))
        (fun p hp => Or.inr ⟨(x, y), List.mem_singleton_self _, hp⟩)
        (by simp [changedCount])
    refine ⟨(floodLoop (img.getPixel x y) (rgba r g b a)
        (5 * tcount img (img.getPixel x y) + 1) img [(x, y)] 0).1, ?_, ?_, ?_, ?_⟩
    · simp only [run_flood_fill, hsp, himg, if_pos hin, if_neg hneq]
    · intro p hp
      exact hfill2 p hp
    · intro p hp
      rcases hsound2 p with hsame | ⟨hpath, _⟩
      · exact hsame
      · exact absurd hpath hp
    · simp only [run_flood_fill, hsp, himg, if_pos hin, if_neg hneq]
      rw [hcnt2]

/-- Two-column surface: column 0 has color 7, column 1 color 8. -/
def wImgFF : Image := ⟨2, 2, fun u _ => if u = 0 then 7 else 8⟩

/-- Host holding `wImgFF`. -/
def wHostFF : Host := ⟨some wSpriteOne, some wImgFF, 0, 0⟩

/-- Witness for C2: flood-filling the 7-colored column from (0,0) paints
(0,0) and its neighbor (0,1) (a concrete 4-connected path) and leaves
the 8-colored column untouched; a seed already of the fill color is a
no-op. -/
theorem flood_fill_spec_witness :
    (wImgFF.inB 0 0 = true ∧ wImgFF.getPixel 0 0 ≠ rgba 1 2 3 4) ∧
    (∃ img2 : Image,
      (run_flood_fill 0 0 1 2 3 4 wHostFF).1 = { wHostFF with activeImage := some img2 } ∧
      img2.pix 0 0 = rgba 1 2 3 4 ∧ img2.pix 0 1 = rgba 1 2 3 4 ∧
      img2.pix 1 0 = 8) ∧
    run_flood_fill 0 0 7 0 0 0 wHostFF =
      (wHostFF, ["Target color is the same as fill color, no action needed"]) := by
  refine ⟨⟨by decide, by decide⟩, ?_, ?_⟩
  · obtain ⟨img2, heq, hfillp, hkeep, _⟩ :=
      (flood_fill_spec wHostFF wSpriteOne wImgFF 0 0 1 2 3 4 rfl rfl).2.2
        (by decide) (by decide)
    refine ⟨img2, heq, ?_, ?_, ?_⟩
    · exact hfillp (0, 0) (PathTo.refl (0, 0) (by decide) (by decide))
    · exact hfillp (0, 1)
        (PathTo.cons (0, 0) (0, 1) (0, 1) (by decide) (by decide)
          (Or.inr (Or.inr (Or.inl rfl)))
          (PathTo.refl (0, 1) (by decide) (by decide)))
    · rw [hkeep (1, 0) (fun hc => by
        have := hc.end_ok.2
        revert this
        decide)]
      decide
  · exact (flood_fill_spec wHostFF wSpriteOne wImgFF 0 0 7 0 0 0 rfl rfl).2.1
      (by decide) (by decide)

theorem putPixel_putPixel_same (img : Image) (x y : Int) (c : Nat) :
    (img.putPixel x y c).putPixel x y c = img.putPixel x y c := by
  unfold Image.putPixel
  simp only
  congr 1
  funext u v
  split_ifs <;> rfl

/-- C9: resubmitting the same `put_pixel` or `flood_fill` script leaves
the host surface exactly as a single submission does (for every starting
state and parameters): the pixel write overwrites itself, and a repeated
flood fill finds the seed already fill-colored and short-circuits. -/
theorem flood_put_pixel_idempotent (x y : Int) (r g b a : Nat) (s : Host) :
    (run_put_pixel x y r g b a (run_put_pixel x y r g b a s).1).1 =
      (run_put_pixel x y r g b a s).1 ∧
    (run_flood_fill x y r g b a (run_flood_fill x y r g b a s).1).1 =
      (run_flood_fill x y r g b a s).1 := by
  constructor
  · cases hsp : s.activeSprite with
    | none => simp [run_put_pixel, hsp]
    | some sp =>
      cases himg : s.activeImage with
      | none => simp [run_put_pixel, hsp, himg]
      | some img =>
        by_cases hin : img.inB x y = true
        · have h1 : (run_put_pixel x y r g b a s).1 =
              { s with activeImage := some (img.putPixel x y (rgba r g b a)) } := by
            simp [run_put_pixel, hsp, himg, hin]
          rw [h1]
          simp [run_put_pixel, hsp, hin, putPixel_putPixel_same]
        · have h1 : (run_put_pixel x y r g b a s).1 = s := by
            simp [run_put_pixel, hsp, himg, hin]
          rw [h1, h1]
  · cases hsp : s.activeSprite with
    | none =>
      have h1 : (run_flood_fill x y r g b a s).1 = s := by
        simp [run_flood_fill, hsp]
      rw [h1, h1]
    | some sp =>
      cases himg : s.activeImage with
      | none =>
        have h1 : (run_flood_fill x y r g b a s).1 = s := by
          simp [run_flood_fill, hsp, himg]
        rw [h1, h1]
      | some img =>
        by_cases hin : img.inB x y = true
        · by_cases heqc : img.getPixel x y = rgba r g b a
          · have h1 : (run_flood_fill x y r g b a s).1 = s := by
              simp [run_flood_fill, hsp, himg, hin, heqc]
            rw [h1, h1]
          · have hne : rgba r g b a ≠ img.getPixel x y := fun hc => heqc hc.symm
            obtain ⟨⟨hw2, hh2⟩, _, hfill2, _⟩ :=
              floodLoop_spec img (img.getPixel x y) (rgba r g b a) (x, y) hne
                (5 * tcount img (img.getPixel x y) + 1) img [(x, y)] 0 rfl rfl
                (by simp)
                (fun p => Or.inl rfl)
                (fun q hq => Or.inl (by simpa using hq))
                (fun p hp => Or.inr ⟨(x, y), List.mem_singleton_self _, hp⟩)
                (by simp [changedCount])
            have h1 : (run_flood_fill x y r g b a s).1 =
                { s with activeImage := some (floodLoop (img.getPixel x y)
                    (rgba r g b a) (5 * tcount img (img.getPixel x y) + 1)
                    img [(x, y)] 0).1 } := by
              simp only [run_flood_fill, hsp, himg, if_pos hin, if_neg heqc]
            have hseed : (floodLoop (img.getPixel x y) (rgba r g b a)
                (5 * tcount img (img.getPixel x y) + 1) img [(x, y)] 0).1.pix x y =
                rgba r g b a :=
              hfill2 (x, y) (PathTo.refl (x, y) hin rfl)
            have hin2 : (floodLoop (img.getPixel x y) (rgba r g b a)
                (5 * tcount img (img.getPixel x y) + 1) img [(x, y)] 0).1.inB x y =
                true := by
              rw [show ∀ im2 : Image, im2.width = img.width → im2.height = img.height →
                  im2.inB x y = img.inB x y from fun im2 hwx hhx => by
                    simp [Image.inB, hwx, hhx]]
              · exact hin
              · exact hw2
              · exact hh2
            simp only [Image.getPixel] at hseed hin2
            rw [h1]
            simp [run_flood_fill, hsp, hin2, Image.getPixel, hseed]
        · have h1 : (run_flood_fill x y r g b a s).1 = s := by
            have hin2 : ¬(img.inB x y = true) := hin
            simp [run_flood_fill, hsp, himg, hin2]
          rw [h1, h1]

/-! ## C8: create_layer and the host's string-literal structure

A minimal lexer for the host scripting language's quote structure:
double- and single-quoted string literals with backslash escapes.  A
script is well-delimited when the lexer ends outside any literal.  The
character classes are by code point: 34 `"`, 39 single quote, 92
backslash. -/

inductive LexState where
  | code | inD | inDEsc | inS | inSEsc
  deriving DecidableEq

/-- One step of the quote lexer. -/
def lexStep (st : LexState) (c : Char) : LexState :=
  match st with
  | .code => if c.toNat = 34 then .inD else if c.toNat = 39 then .inS else .code
  | .inD => if c.toNat = 92 then .inDEsc else if c.toNat = 34 then .code else .inD
  | .inDEsc => .inD
  | .inS => if c.toNat = 92 then .inSEsc else if c.toNat = 39 then .code else .inS
  | .inSEsc => .inS

/-- The generated script's quote structure is well formed: the lexer,
started in code space, ends in code space. -/
def wellDelimited (s : String) : Bool :=
  decide (s.data.foldl lexStep LexState.code = LexState.code)

theorem lexRun_inD_safe (l : List Char)
    (h : ∀ c ∈ l, c.toNat ≠ 34 ∧ c.toNat ≠ 92) :
    l.foldl lexStep LexState.inD = LexState.inD := by
  induction l with
  | nil => rfl
  | cons hd tl ih =>
    have hhd := h hd (List.mem_cons_self _ _)
    have hstep : lexStep LexState.inD hd = LexState.inD := by
      simp [lexStep, hhd.1, hhd.2]
    rw [List.foldl_cons, hstep]
    exact ih (fun c hc => h c (List.mem_cons_of_mem _ hc))

theorem lexRun_inS_safe (l : List Char)
    (h : ∀ c ∈ l, c.toNat ≠ 39 ∧ c.toNat ≠ 92) :
    l.foldl lexStep LexState.inS = LexState.inS := by
  induction l with
  | nil => rfl
  | cons hd tl ih =>
    have hhd := h hd (List.mem_cons_self _ _)
    have hstep : lexStep LexState.inS hd = LexState.inS := by
      simp [lexStep, hhd.1, hhd.2]
    rw [List.foldl_cons, hstep]
    exact ih (fun c hc => h c (List.mem_cons_of_mem _ hc))

set_option maxRecDepth 20000 in
/-- C8 counterexample: `create_layer` interpolates the layer name with no
escaping.  A benign name keeps the script's quote structure well formed,
but the one-character name `"` already breaks it — the generated script
contains the malformed `setParameter("name", """);` and the lexer ends
inside a literal, so the name is *not* confined to string-literal
content and the claimed escaping does not exist. -/
theorem create_layer_injection_counterexample :
    wellDelimited (create_layer "New Layer") = true ∧
    wellDelimited (create_layer "\"") = false ∧
    strContains (create_layer "\"") "setParameter(\"name\", \"\"\");" := by
  refine ⟨by decide, by decide,
    ⟨"\ntry \x7b\n    const sprite = app.activeSprite;\n    if (!sprite) \x7b\n        console.log('No active sprite');\n    \x7d else \x7b\n        // Use the NewLayer command to create a new layer\n        app.command.",
     "\n        app.command.NewLayer();\n        app.command.clearParameters();\n        \n        console.log('Created new layer: \"');\n        console.log('Sprite now has ' + sprite.layerCount + ' layer(s)');\n    \x7d\n\x7d catch (e) \x7b\n    console.log('Error creating layer: ' + e.message);\n\x7d\n",
     by decide⟩⟩

set_option maxRecDepth 20000 in
/-- C8 amended: the interpolation is verbatim, so the guarantee only
holds for names free of quote and backslash characters (code points 34,
39, 92); for those, both occurrences of the name land strictly inside
string literals and the script's quote structure stays well formed. -/
theorem create_layer_interpolation_amended (nm : String)
    (h : ∀ c ∈ nm.data, c.toNat ≠ 34 ∧ c.toNat ≠ 39 ∧ c.toNat ≠ 92) :
    wellDelimited (create_layer nm) = true := by
  unfold wellDelimited create_layer
  rw [String.data_append, String.data_append, String.data_append,
    String.data_append, List.foldl_append, List.foldl_append,
    List.foldl_append, List.foldl_append]
  have hA : createLayerSegA.data.foldl lexStep LexState.code = LexState.inD := by
    decide
  have hB : createLayerSegB.data.foldl lexStep LexState.inD = LexState.inS := by
    decide
  have hC : createLayerSegC.data.foldl lexStep LexState.inS = LexState.code := by
    decide
  rw [hA, lexRun_inD_safe nm.data (fun c hc => ⟨(h c hc).1, (h c hc).2.2⟩), hB,
    lexRun_inS_safe nm.data (fun c hc => ⟨(h c hc).2.1, (h c hc).2.2⟩), hC]
  decide

set_option maxRecDepth 20000 in
/-- Witness for the amended C8: the default name "New Layer" is free of
quote characters and yields a well-delimited script. -/
theorem create_layer_interpolation_amended_witness :
    (∀ c ∈ ("New Layer" : String).data, c.toNat ≠ 34 ∧ c.toNat ≠ 39 ∧ c.toNat ≠ 92) ∧
    wellDelimited (create_layer "New Layer") = true :=
  ⟨by decide, create_layer_interpolation_amended "New Layer" (by decide)⟩

set_option maxRecDepth 20000 in
/-- C1: for every template and valid parameters the generated text is
non-empty and byte-identical across calls (the generators are pure
functions of their arguments); every generated script's meaning guards
the absent document — with no active sprite the 12 document-dependent
scripts print `No active sprite` and change nothing — and every
pixel-touching script likewise guards the absent drawable surface with
`No active image` and no mutation; `create_sprite`, which must run
without a document, itself mutates nothing beyond invoking the host's
`NewFile` command, touches no pixel data, and prints a diagnostic when
no document is active afterwards. -/
theorem templates_guard_invariant :
    ((∀ w h : Nat, ∀ m : String, 0 < (create_sprite w h m).length ∧
        create_sprite w h m = create_sprite w h m) ∧
     (∀ nm : String, 0 < (create_layer nm).length ∧ create_layer nm = create_layer nm) ∧
     (∀ r g b a : Nat, 0 < (fill_layer r g b a).length ∧
        fill_layer r g b a = fill_layer r g b a) ∧
     (∀ cx cy : Int, ∀ radius r g b a : Nat, ∀ f : Bool,
        0 < (draw_circle cx cy radius r g b a f).length ∧
        draw_circle cx cy radius r g b a f = draw_circle cx cy radius r g b a f) ∧
     (0 < get_sprite_info.length ∧ get_sprite_info = get_sprite_info) ∧
     (∀ x y : Int, ∀ w h r g b a : Nat, ∀ f : Bool,
        0 < (draw_rectangle x y w h r g b a f).length ∧
        draw_rectangle x y w h r g b a f = draw_rectangle x y w h r g b a f) ∧
     (∀ x1 y1 x2 y2 : Int, ∀ r g b a t : Nat,
        0 < (draw_line x1 y1 x2 y2 r g b a t).length ∧
        draw_line x1 y1 x2 y2 r g b a t = draw_line x1 y1 x2 y2 r g b a t) ∧
     (∀ cx cy : Int, ∀ w h r g b a : Nat, ∀ f : Bool,
        0 < (draw_ellipse cx cy w h r g b a f).length ∧
        draw_ellipse cx cy w h r g b a f = draw_ellipse cx cy w h r g b a f) ∧
     (∀ x y : Int, ∀ r g b a : Nat, 0 < (put_pixel x y r g b a).length ∧
        put_pixel x y r g b a = put_pixel x y r g b a) ∧
     (∀ x y : Int, ∀ r g b a : Nat, 0 < (flood_fill x y r g b a).length ∧
        flood_fill x y r g b a = flood_fill x y r g b a) ∧
     (∀ n : Int, 0 < (set_active_layer n).length ∧
        set_active_layer n = set_active_layer n) ∧
     (∀ n : Int, 0 < (delete_layer n).length ∧ delete_layer n = delete_layer n) ∧
     (∀ p1 p2 p3 p4 p5 p6 p7 : Nat,
        0 < (replace_color p1 p2 p3 p4 p5 p6 p7).length ∧
        replace_color p1 p2 p3 p4 p5 p6 p7 = replace_color p1 p2 p3 p4 p5 p6 p7)) ∧
    (∀ (nf : NewFileCmd) (w h : Nat) (m : String) (s : Host),
      (run_create_sprite nf w h m s).1 = nf w h (pyUpper m) s ∧
      ((nf w h (pyUpper m) s).activeSprite = none →
        (run_create_sprite nf w h m s).2 = ["Failed to create sprite"])) ∧
    ((∀ nm : String, ∀ s : Host, s.activeSprite = none →
        run_create_layer nm s = (s, ["No active sprite"])) ∧
     (∀ r g b a : Nat, ∀ s : Host, s.activeSprite = none →
        run_fill_layer r g b a s = (s, ["No active sprite"])) ∧
     (∀ cx cy : Int, ∀ radius r g b a : Nat, ∀ f : Bool, ∀ s : Host,
        s.activeSprite = none →
        run_draw_circle cx cy radius r g b a f s = (s, ["No active sprite"])) ∧
     (∀ s : Host, s.activeSprite = none →
        run_get_sprite_info s = (s, ["No active sprite"])) ∧
     (∀ x y : Int, ∀ w h r g b a : Nat, ∀ f : Bool, ∀ s : Host,
        s.activeSprite = none →
        run_draw_rectangle x y w h r g b a f s = (s, ["No active sprite"])) ∧
     (∀ x1 y1 x2 y2 : Int, ∀ r g b a t : Nat, ∀ s : Host, s.activeSprite = none →
        run_draw_line x1 y1 x2 y2 r g b a t s = (s, ["No active sprite"])) ∧
     (∀ cx cy : Int, ∀ w h r g b a : Nat, ∀ f : Bool, ∀ s : Host,
        s.activeSprite = none →
        run_draw_ellipse cx cy w h r g b a f s = (s, ["No active sprite"])) ∧
     (∀ x y : Int, ∀ r g b a : Nat, ∀ s : Host, s.activeSprite = none →
        run_put_pixel x y r g b a s = (s, ["No active sprite"])) ∧
     (∀ x y : Int, ∀ r g b a : Nat, ∀ s : Host, s.activeSprite = none →
        run_flood_fill x y r g b a s = (s, ["No active sprite"])) ∧
     (∀ n : Int, ∀ s : Host, s.activeSprite = none →
        run_set_active_layer n s = (s, ["No active sprite"])) ∧
     (∀ n : Int, ∀ s : Host, s.activeSprite = none →
        run_delete_layer n s = (s, ["No active sprite"])) ∧
     (∀ p1 p2 p3 p4 p5 p6 p7 : Nat, ∀ s : Host, s.activeSprite = none →
        run_replace_color p1 p2 p3 p4 p5 p6 p7 s = (s, ["No active sprite"]))) ∧
    ((∀ r g b a : Nat, ∀ s : Host, ∀ sp : Sprite, s.activeSprite = some sp →
        s.activeImage = none → run_fill_layer r g b a s = (s, ["No active image"])) ∧
     (∀ cx cy : Int, ∀ radius r g b a : Nat, ∀ f : Bool, ∀ s : Host, ∀ sp : Sprite,
        s.activeSprite = some sp → s.activeImage = none →
        run_draw_circle cx cy radius r g b a f s = (s, ["No active image"])) ∧
     (∀ x y : Int, ∀ w h r g b a : Nat, ∀ f : Bool, ∀ s : Host, ∀ sp : Sprite,
        s.activeSprite = some sp → s.activeImage = none →
        run_draw_rectangle x y w h r g b a f s = (s, ["No active image"])) ∧
     (∀ x1 y1 x2 y2 : Int, ∀ r g b a t : Nat, ∀ s : Host, ∀ sp : Sprite,
        s.activeSprite = some sp → s.activeImage = none →
        run_draw_line x1 y1 x2 y2 r g b a t s = (s, ["No active image"])) ∧
     (∀ cx cy : Int, ∀ w h r g b a : Nat, ∀ f : Bool, ∀ s : Host, ∀ sp : Sprite,
        s.activeSprite = some sp → s.activeImage = none →
        run_draw_ellipse cx cy w h r g b a f s = (s, ["No active image"])) ∧
     (∀ x y : Int, ∀ r g b a : Nat, ∀ s : Host, ∀ sp : Sprite,
        s.activeSprite = some sp → s.activeImage = none →
        run_put_pixel x y r g b a s = (s, ["No active image"])) ∧
     (∀ x y : Int, ∀ r g b a : Nat, ∀ s : Host, ∀ sp : Sprite,
        s.activeSprite = some sp → s.activeImage = none →
        run_flood_fill x y r g b a s = (s, ["No active image"])) ∧
     (∀ p1 p2 p3 p4 p5 p6 p7 : Nat, ∀ s : Host, ∀ sp : Sprite,
        s.activeSprite = some sp → s.activeImage = none →
        run_replace_color p1 p2 p3 p4 p5 p6 p7 s = (s, ["No active image"]))) := by
  refine ⟨⟨?_, ?_, ?_, ?_, ?_, ?_, ?_, ?_, ?_, ?_, ?_, ?_, ?_⟩, ?_, ?_, ?_⟩
  · intro w h m
    refine ⟨?_, rfl⟩
    repeat apply length_append_pos_left
    decide
  · intro nm
    refine ⟨?_, rfl⟩
    repeat apply length_append_pos_left
    decide
  · intro r g b a
    refine ⟨?_, rfl⟩
    repeat apply length_append_pos_left
    decide
  · intro cx cy radius r g b a f
    refine ⟨?_, rfl⟩
    repeat apply length_append_pos_left
    decide
  · refine ⟨?_, rfl⟩
    decide
  · intro x y w h r g b a f
    refine ⟨?_, rfl⟩
    repeat apply length_append_pos_left
    decide
  · intro x1 y1 x2 y2 r g b a t
    refine ⟨?_, rfl⟩
    repeat apply length_append_pos_left
    decide
  · intro cx cy w h r g b a f
    refine ⟨?_, rfl⟩
    repeat apply length_append_pos_left
    decide
  · intro x y r g b a
    refine ⟨?_, rfl⟩
    repeat apply length_append_pos_left
    decide
  · intro x y r g b a
    refine ⟨?_, rfl⟩
    repeat apply length_append_pos_left
    decide
  · intro n
    refine ⟨?_, rfl⟩
    repeat apply length_append_pos_left
    decide
  · intro n
    refine ⟨?_, rfl⟩
    repeat apply length_append_pos_left
    decide
  · intro p1 p2 p3 p4 p5 p6 p7
    refine ⟨?_, rfl⟩
    repeat apply length_append_pos_left
    decide
  · intro nf w h m s
    constructor
    · cases hcase : (nf w h (pyUpper m) s).activeSprite with
      | none => simp [run_create_sprite, hcase]
      | some sp => simp [run_create_sprite, hcase]
    · intro hnone
      simp [run_create_sprite, hnone]
  · refine ⟨?_, ?_, ?_, ?_, ?_, ?_, ?_, ?_, ?_, ?_, ?_, ?_⟩
    · intro nm s hsp
      simp [run_create_layer, hsp]
    · intro r g b a s hsp
      simp [run_fill_layer, hsp]
    · intro cx cy radius r g b a f s hsp
      simp [run_draw_circle, hsp]
    · intro s hsp
      simp [run_get_sprite_info, hsp]
    · intro x y w h r g b a f s hsp
      simp [run_draw_rectangle, hsp]
    · intro x1 y1 x2 y2 r g b a t s hsp
      simp [run_draw_line, hsp]
    · intro cx cy w h r g b a f s hsp
      simp [run_draw_ellipse, hsp]
    · intro x y r g b a s hsp
      simp [run_put_pixel, hsp]
    · intro x y r g b a s hsp
      simp [run_flood_fill, hsp]
    · intro n s hsp
      simp [run_set_active_layer, hsp]
    · intro n s hsp
      simp [run_delete_layer, hsp]
    · intro p1 p2 p3 p4 p5 p6 p7 s hsp
      simp [run_replace_color, hsp]
  · refine ⟨?_, ?_, ?_, ?_, ?_, ?_, ?_, ?_⟩
    · intro r g b a s sp hsp himg
      simp [run_fill_layer, hsp, himg]
    · intro cx cy radius r g b a f s sp hsp himg
      simp [run_draw_circle, hsp, himg]
    · intro x y w h r g b a f s sp hsp himg
      simp [run_draw_rectangle, hsp, himg]
    · intro x1 y1 x2 y2 r g b a t s sp hsp himg
      simp [run_draw_line, hsp, himg]
    · intro cx cy w h r g b a f s sp hsp himg
      simp [run_draw_ellipse, hsp, himg]
    · intro x y r g b a s sp hsp himg
      simp [run_put_pixel, hsp, himg]
    · intro x y r g b a s sp hsp himg
      simp [run_flood_fill, hsp, himg]
    · intro p1 p2 p3 p4 p5 p6 p7 s sp hsp himg
      simp [run_replace_color, hsp, himg]

/-- Empty host: no document, no surface. -/
def wHostNone : Host := ⟨none, none, 0, 0⟩

/-- Witness for C1: on a host without a document the flood-fill script
only prints the diagnostic and changes nothing; with a document but no
surface the put-pixel script likewise; and a concrete generated text is
non-empty. -/
theorem templates_guard_invariant_witness :
    (wHostNone.activeSprite = none ∧
      run_flood_fill 1 2 3 4 5 6 wHostNone = (wHostNone, ["No active sprite"])) ∧
    (wHostOne.activeSprite = some wSpriteOne ∧ wHostOne.activeImage = none ∧
      run_put_pixel 0 0 1 2 3 4 wHostOne = (wHostOne, ["No active image"])) ∧
    0 < (create_sprite 32 32 "RGB").length := by
  refine ⟨⟨rfl, ?_⟩, ⟨rfl, rfl, ?_⟩, ?_⟩
  · exact templates_guard_invariant.2.2.1.2.2.2.2.2.2.2.2.1 1 2 3 4 5 6 wHostNone rfl
  · exact templates_guard_invariant.2.2.2.2.2.2.2.2.1 0 0 1 2 3 4 wHostOne wSpriteOne
      rfl rfl
  · exact (templates_guard_invariant.1.1 32 32 "RGB").1
